import Mathlib

/-!
SCSI persistent reservations: the REGISTER family of PERSISTENT RESERVE OUT.

A shallow embedding of `lib/scsi/scsi_pr.c`.

* Pointers are addresses (`Nat`); the null pointer is `none`.
* The registrant queue `lun->reg_head` is the list of its nodes in queue order.
  Every node carries the address of its own storage, so that the comparisons
  `lun->reservation.holder == reg` and the in-place write `reg->rkey = ...`
  act on the identity of a node and not on its content.
* `calloc` is an input of the model: the pointer that the allocator hands out
  at the call (`none` when it fails).
* `spdk_scsi_task_set_status` belongs to the command layer; the task keeps the
  list of the reports made through it.
* `task->lun` is the LUN state carried inside the task; a function that mutates
  the LUN returns the new state.
-/

set_option linter.unusedVariables false

/-! ## Declarations of the headers used by `scsi_pr.c` -/

/-- The declarations of `scsi_internal.h` that the code depends on and that are not part
of the sources, taken as parameters: the capacities of the two name arrays of a
registrant (`sizeof(reg->initiator_port_name)`, `sizeof(reg->target_port_name)`) and the
width in bits of the unsigned counter `lun->pr_generation`. -/
structure spdk_scsi_decls where
  initiator_port_name_size : Nat
  target_port_name_size : Nat
  pr_generation_bits : Nat
deriving DecidableEq

/-- Modelled from the spec: service action code REGISTER (spec section 6: 0x00). -/
def SPDK_SCSI_PR_OUT_REGISTER : Nat := 0x00

/-- Modelled from the spec: service action code RESERVE (spec section 6: 0x01). -/
def SPDK_SCSI_PR_OUT_RESERVE : Nat := 0x01

/-- Modelled from the spec: service action code RELEASE (spec section 6: 0x02). -/
def SPDK_SCSI_PR_OUT_RELEASE : Nat := 0x02

/-- Modelled from the spec: service action code CLEAR (spec section 6: 0x03). -/
def SPDK_SCSI_PR_OUT_CLEAR : Nat := 0x03

/-- Modelled from the spec: service action code PREEMPT (spec section 6: 0x04). -/
def SPDK_SCSI_PR_OUT_PREEMPT : Nat := 0x04

/-- Modelled from the spec: service action code PREEMPT AND ABORT (spec section 6: 0x05). -/
def SPDK_SCSI_PR_OUT_PREEMPT_AND_ABORT : Nat := 0x05

/-- Modelled from the spec: service action code REGISTER AND IGNORE EXISTING KEY
(spec section 6: 0x06). -/
def SPDK_SCSI_PR_OUT_REG_AND_IGNORE_KEY : Nat := 0x06

/-- Modelled from the spec: service action code REGISTER AND MOVE (spec section 6: 0x07). -/
def SPDK_SCSI_PR_OUT_REG_AND_MOVE : Nat := 0x07

/-- Modelled from the spec: reservation type "write-exclusive, all registrants", one of
the two all-registrants types of section 3 (type code 7 of the SCSI standard). -/
def SPDK_SCSI_PR_WRITE_EXCLUSIVE_ALL_REGS : Nat := 0x7

/-- Modelled from the spec: reservation type "exclusive-access, all registrants", the
other all-registrants type of section 3 (type code 8 of the SCSI standard). -/
def SPDK_SCSI_PR_EXCLUSIVE_ACCESS_ALL_REGS : Nat := 0x8

/-- Modelled from the spec: status GOOD of section 6 (SCSI status byte 00h). -/
def SPDK_SCSI_STATUS_GOOD : Nat := 0x00

/-- Modelled from the spec: status CHECK CONDITION of section 6 (SCSI status byte 02h). -/
def SPDK_SCSI_STATUS_CHECK_CONDITION : Nat := 0x02

/-- Modelled from the spec: status RESERVATION CONFLICT of section 6 (SCSI status
byte 18h). -/
def SPDK_SCSI_STATUS_RESERVATION_CONFLICT : Nat := 0x18

/-- Modelled from the spec: sense key NO SENSE of section 6 (SCSI sense key 0h). -/
def SPDK_SCSI_SENSE_NO_SENSE : Nat := 0x00

/-- Modelled from the spec: sense key ILLEGAL REQUEST of section 6 (SCSI sense key 5h). -/
def SPDK_SCSI_SENSE_ILLEGAL_REQUEST : Nat := 0x05

/-- Modelled from the spec: "no additional sense code" (SCSI additional sense code 00h). -/
def SPDK_SCSI_ASC_NO_ADDITIONAL_SENSE : Nat := 0x00

/-- Modelled from the spec: additional sense code INVALID FIELD IN CDB of section 6
(SCSI additional sense code 24h). -/
def SPDK_SCSI_ASC_INVALID_FIELD_IN_CDB : Nat := 0x24

/-- Modelled from the spec: additional sense code qualifier "cause not reportable" of
section 6 (SCSI qualifier 00h). -/
def SPDK_SCSI_ASCQ_CAUSE_NOT_REPORTABLE : Nat := 0x00

/-- The errno value `EINVAL` of the C library. -/
def EINVAL : Int := 22

/-- The errno value `ENOMEM` of the C library. -/
def ENOMEM : Int := 12

/-! ## Data model -/

/-- Modelled from the spec: a port object (`struct spdk_scsi_port`, section 6: "port
objects exposing a display name, a transport identifier blob, and an index"); `addr`
is the address of the object, the value of a pointer to it. -/
structure spdk_scsi_port where
  addr : Nat
  name : List Nat
  transport_id : List Nat
  transport_id_len : Nat
  index : Nat
deriving DecidableEq

/-- Modelled from the spec: a registrant (`struct spdk_scsi_pr_registrant`, section 3),
with the fields that `spdk_scsi_pr_register_registrant` fills in; `addr` is the address
of the node, the value of a pointer to it. -/
structure spdk_scsi_pr_registrant where
  addr : Nat
  rkey : Nat
  relative_target_port_id : Nat
  transport_id_len : Nat
  transport_id : List Nat
  initiator_port_name : List Nat
  target_port_name : List Nat
  initiator_port : Nat
  target_port : Nat
deriving DecidableEq

/-- Modelled from the spec: the reservation holder state (`struct
spdk_scsi_pr_reservation`, section 3): the holder pointer (`none` is NULL) and the
reservation type (0 is "type unset"). -/
structure spdk_scsi_pr_reservation where
  holder : Option Nat
  rtype : Nat
deriving DecidableEq

/-- Modelled from the spec: the LUN reservation context (the fields of `struct
spdk_scsi_lun` that `scsi_pr.c` uses, section 3): registrant queue, generation
counter and reservation. -/
structure spdk_scsi_lun where
  reg_head : List spdk_scsi_pr_registrant
  pr_generation : Nat
  reservation : spdk_scsi_pr_reservation
deriving DecidableEq

/-- One report made through `spdk_scsi_task_set_status`: its four arguments. -/
structure spdk_scsi_status_report where
  sc : Nat
  sk : Nat
  asc : Nat
  ascq : Nat
deriving DecidableEq

/-- Modelled from the spec: the task object (`struct spdk_scsi_task`, section 6: "a
command/task object exposing the requesting initiator port and target port identities
and a method to set the final status/sense/ASC/ASCQ"). `status_reports` lists the
reports made through that method, oldest first. -/
structure spdk_scsi_task where
  lun : spdk_scsi_lun
  initiator_port : spdk_scsi_port
  target_port : spdk_scsi_port
  status_reports : List spdk_scsi_status_report
deriving DecidableEq

/-- Modelled from the spec: the PERSISTENT RESERVE OUT parameter list as the code reads
it through `struct spdk_scsi_pr_out_param_list` (section 6): the eight bytes of the
reservation key, the eight bytes of the service action reservation key, and the three
single-bit fields. -/
structure spdk_scsi_pr_out_param_list where
  rkey : List Nat
  sa_rkey : List Nat
  aptpl : Nat
  spec_i_pt : Nat
  all_tg_pt : Nat
deriving DecidableEq

/-! ## Primitives of the C library and of the command layer -/

/-- Modelled from the spec: `spdk_scsi_task_set_status`, the status-setting method of
the task (section 6); the report is recorded on the task. -/
def spdk_scsi_task_set_status (task : spdk_scsi_task) (sc sk asc ascq : Nat) :
    spdk_scsi_task :=
  { task with status_reports := task.status_reports ++ [⟨sc, sk, asc, ascq⟩] }

/-- Modelled from the spec: `from_be64` of `spdk/endian.h` (section 6: "big-endian on
the wire"): the value of the eight bytes at the pointer, most significant first. -/
def from_be64 (bytes : List Nat) : Nat :=
  (bytes.take 8).foldl (fun acc b => acc * 256 + b % 256) 0

/-- The characters that `snprintf(dst, size, "%s", src)` stores in `dst` before the
terminating NUL. -/
def snprintf_str (size : Nat) (src : List Nat) : List Nat :=
  src.take (size - 1)

/-- The bytes that `memcpy(dst, src, n)` stores in `dst`. -/
def memcpy_bytes (src : List Nat) (n : Nat) : List Nat :=
  src.take n

/-- The queue test `TAILQ_EMPTY`. -/
def TAILQ_EMPTY (head : List spdk_scsi_pr_registrant) : Bool :=
  head.isEmpty

/-- The queue access `TAILQ_FIRST`: pointer to the first node, NULL on an empty queue. -/
def TAILQ_FIRST (head : List spdk_scsi_pr_registrant) : Option Nat :=
  match head with
  | [] => none
  | reg :: _ => some reg.addr

/-- The queue operation `TAILQ_INSERT_TAIL`. -/
def TAILQ_INSERT_TAIL (head : List spdk_scsi_pr_registrant)
    (reg : spdk_scsi_pr_registrant) : List spdk_scsi_pr_registrant :=
  head ++ [reg]

/-- The queue operation `TAILQ_REMOVE`: the node stored at address `elm` is unlinked. -/
def TAILQ_REMOVE (head : List spdk_scsi_pr_registrant) (elm : Nat) :
    List spdk_scsi_pr_registrant :=
  head.filter (fun reg => reg.addr != elm)

/-- The increment `lun->pr_generation++` of an unsigned counter of the declared width. -/
def pr_generation_incr (H : spdk_scsi_decls) (lun : spdk_scsi_lun) : spdk_scsi_lun :=
  { lun with pr_generation := (lun.pr_generation + 1) % 2 ^ H.pr_generation_bits }

/-! ## The functions of `scsi_pr.c` -/

/-- Get registrant by I_T nexus: the first node of the queue with both ports equal. -/
def spdk_scsi_pr_get_registrant (lun : spdk_scsi_lun) (initiator_port target_port : Nat) :
    Option spdk_scsi_pr_registrant :=
  lun.reg_head.find? (fun reg =>
    initiator_port == reg.initiator_port && target_port == reg.target_port)

/-- Reservation type is all registrants or not. -/
def spdk_scsi_pr_is_all_registrants_type (lun : spdk_scsi_lun) : Bool :=
  lun.reservation.rtype == SPDK_SCSI_PR_WRITE_EXCLUSIVE_ALL_REGS ||
    lun.reservation.rtype == SPDK_SCSI_PR_EXCLUSIVE_ACCESS_ALL_REGS

/-- Registrant is reservation holder or not; `reg` is the pointer to the registrant. -/
def spdk_scsi_pr_registrant_is_holder (lun : spdk_scsi_lun) (reg : Nat) : Bool :=
  if spdk_scsi_pr_is_all_registrants_type lun then true
  else lun.reservation.holder == some reg

/-- Register `sa_rkey` with the I_T nexus; `calloc` is the result of the allocation. -/
def spdk_scsi_pr_register_registrant (H : spdk_scsi_decls) (calloc : Option Nat)
    (lun : spdk_scsi_lun) (initiator_port target_port : spdk_scsi_port) (sa_rkey : Nat) :
    Int × spdk_scsi_lun :=
  match calloc with
  | none => (-ENOMEM, lun)
  | some p =>
    let reg : spdk_scsi_pr_registrant :=
      { addr := p
        initiator_port := initiator_port.addr
        initiator_port_name := snprintf_str H.initiator_port_name_size initiator_port.name
        transport_id_len := initiator_port.transport_id_len
        transport_id := memcpy_bytes initiator_port.transport_id initiator_port.transport_id_len
        target_port := target_port.addr
        target_port_name := snprintf_str H.target_port_name_size target_port.name
        relative_target_port_id := target_port.index
        rkey := sa_rkey }
    (0, pr_generation_incr H { lun with reg_head := TAILQ_INSERT_TAIL lun.reg_head reg })

/-- Release the reservation after registrant `reg` left: an all-registrants reservation
with a non-empty queue moves to the first node, any other reservation is zeroed. -/
def spdk_scsi_pr_release_reservation (lun : spdk_scsi_lun) (reg : Nat) : spdk_scsi_lun :=
  let all_regs := spdk_scsi_pr_is_all_registrants_type lun
  if all_regs && !TAILQ_EMPTY lun.reg_head then
    { lun with reservation := { lun.reservation with holder := TAILQ_FIRST lun.reg_head } }
  else
    { lun with reservation := { holder := none, rtype := 0 } }

/-- Unregister the registrant at address `reg`. -/
def spdk_scsi_pr_unregister_registrant (H : spdk_scsi_decls) (lun : spdk_scsi_lun)
    (reg : Nat) : spdk_scsi_lun :=
  let lun1 := { lun with reg_head := TAILQ_REMOVE lun.reg_head reg }
  let lun2 :=
    if spdk_scsi_pr_registrant_is_holder lun1 reg then
      spdk_scsi_pr_release_reservation lun1 reg
    else lun1
  pr_generation_incr H lun2

/-- Replace the key of the registrant at address `reg` (the write `reg->rkey = sa_rkey`). -/
def spdk_scsi_pr_replace_registrant_key (H : spdk_scsi_decls) (lun : spdk_scsi_lun)
    (reg : Nat) (sa_rkey : Nat) : spdk_scsi_lun :=
  pr_generation_incr H
    { lun with reg_head :=
        lun.reg_head.map (fun r => if r.addr == reg then { r with rkey := sa_rkey } else r) }

/-- The label `error_exit` of `spdk_scsi_pr_out_register`. -/
def spdk_scsi_pr_out_register_error_exit (task : spdk_scsi_task) (sc sk asc : Nat) :
    Int × spdk_scsi_task :=
  (-EINVAL, spdk_scsi_task_set_status task sc sk asc SPDK_SCSI_ASC_NO_ADDITIONAL_SENSE)

/-- REGISTER and REGISTER AND IGNORE EXISTING KEY: result code and task afterwards. -/
def spdk_scsi_pr_out_register (H : spdk_scsi_decls) (calloc : Option Nat)
    (task : spdk_scsi_task) (action rkey sa_rkey spec_i_pt all_tg_pt aptpl : Nat) :
    Int × spdk_scsi_task :=
  if spec_i_pt != 0 || all_tg_pt != 0 || aptpl != 0 then
    spdk_scsi_pr_out_register_error_exit task SPDK_SCSI_STATUS_CHECK_CONDITION
      SPDK_SCSI_SENSE_ILLEGAL_REQUEST SPDK_SCSI_ASC_INVALID_FIELD_IN_CDB
  else
    match spdk_scsi_pr_get_registrant task.lun task.initiator_port.addr
        task.target_port.addr with
    | none =>
      if rkey != 0 && action == SPDK_SCSI_PR_OUT_REGISTER then
        spdk_scsi_pr_out_register_error_exit task SPDK_SCSI_STATUS_RESERVATION_CONFLICT
          SPDK_SCSI_SENSE_NO_SENSE SPDK_SCSI_ASC_NO_ADDITIONAL_SENSE
      else if sa_rkey == 0 then
        (0, task)
      else
        let r := spdk_scsi_pr_register_registrant H calloc task.lun task.initiator_port
          task.target_port sa_rkey
        (r.1, { task with lun := r.2 })
    | some reg =>
      if rkey != reg.rkey && action == SPDK_SCSI_PR_OUT_REGISTER then
        spdk_scsi_pr_out_register_error_exit task SPDK_SCSI_STATUS_RESERVATION_CONFLICT
          SPDK_SCSI_SENSE_NO_SENSE SPDK_SCSI_ASC_NO_ADDITIONAL_SENSE
      else if sa_rkey == 0 then
        (0, { task with lun := spdk_scsi_pr_unregister_registrant H task.lun reg.addr })
      else
        (0, { task with lun :=
                spdk_scsi_pr_replace_registrant_key H task.lun reg.addr sa_rkey })

/-- PERSISTENT RESERVE OUT: decode the service action and the parameter list and
dispatch; `param` is the view of `data` as a parameter list. -/
def spdk_scsi_pr_out (H : spdk_scsi_decls) (calloc : Option Nat) (task : spdk_scsi_task)
    (cdb : List Nat) (param : spdk_scsi_pr_out_param_list) (data_len : Nat) :
    Int × spdk_scsi_task :=
  let action := (cdb.getD 1 0) &&& 0x0f
  let rkey := from_be64 param.rkey
  let sa_rkey := from_be64 param.sa_rkey
  let aptpl := param.aptpl
  let spec_i_pt := param.spec_i_pt
  let all_tg_pt := param.all_tg_pt
  if action == SPDK_SCSI_PR_OUT_REGISTER || action == SPDK_SCSI_PR_OUT_REG_AND_IGNORE_KEY then
    spdk_scsi_pr_out_register H calloc task action rkey sa_rkey spec_i_pt all_tg_pt aptpl
  else
    (-EINVAL, spdk_scsi_task_set_status task SPDK_SCSI_STATUS_CHECK_CONDITION
      SPDK_SCSI_SENSE_ILLEGAL_REQUEST SPDK_SCSI_ASC_INVALID_FIELD_IN_CDB
      SPDK_SCSI_ASCQ_CAUSE_NOT_REPORTABLE)

/-! ## Well-formedness of a LUN state -/

/-- The nodes of the registrant queue occupy pairwise different addresses (distinct
live objects never share storage). -/
def nodes_distinct (lun : spdk_scsi_lun) : Prop :=
  lun.reg_head.Pairwise (fun a b => a.addr ≠ b.addr)

/-- No two registrants of the LUN share an I_T nexus. -/
def nexus_unique (lun : spdk_scsi_lun) : Prop :=
  lun.reg_head.Pairwise (fun a b =>
    ¬ (a.initiator_port = b.initiator_port ∧ a.target_port = b.target_port))

/-! ## Sample configurations -/

/-- Header declarations with a 32-bit generation counter and 256-byte names. -/
def sample_decls : spdk_scsi_decls :=
  { initiator_port_name_size := 256, target_port_name_size := 256, pr_generation_bits := 32 }

/-- Initiator port of nexus N1. -/
def sample_initiator_1 : spdk_scsi_port :=
  { addr := 100, name := [105, 49], transport_id := [5, 0, 0, 2, 105, 49],
    transport_id_len := 6, index := 0 }

/-- Initiator port of nexus N2. -/
def sample_initiator_2 : spdk_scsi_port :=
  { addr := 101, name := [105, 50], transport_id := [5, 0, 0, 2, 105, 50],
    transport_id_len := 6, index := 0 }

/-- The target port of both nexuses. -/
def sample_target : spdk_scsi_port :=
  { addr := 200, name := [116, 49], transport_id := [], transport_id_len := 0, index := 1 }

/-- Registrant of nexus N1, key 0x1234, stored at address 4096. -/
def sample_reg_1 : spdk_scsi_pr_registrant :=
  { addr := 4096, rkey := 0x1234, relative_target_port_id := 1, transport_id_len := 6,
    transport_id := [5, 0, 0, 2, 105, 49], initiator_port_name := [105, 49],
    target_port_name := [116, 49], initiator_port := 100, target_port := 200 }

/-- Registrant of nexus N2, key 0x5678, stored at address 8192. -/
def sample_reg_2 : spdk_scsi_pr_registrant :=
  { addr := 8192, rkey := 0x5678, relative_target_port_id := 1, transport_id_len := 6,
    transport_id := [5, 0, 0, 2, 105, 50], initiator_port_name := [105, 50],
    target_port_name := [116, 49], initiator_port := 101, target_port := 200 }

/-- A task of nexus N1 on the given LUN state, nothing reported yet. -/
def sample_task_1 (lun : spdk_scsi_lun) : spdk_scsi_task :=
  { lun := lun, initiator_port := sample_initiator_1, target_port := sample_target,
    status_reports := [] }

/-- A task of nexus N2 on the given LUN state, nothing reported yet. -/
def sample_task_2 (lun : spdk_scsi_lun) : spdk_scsi_task :=
  { lun := lun, initiator_port := sample_initiator_2, target_port := sample_target,
    status_reports := [] }

/-- A LUN without registrants and without reservation, at generation `gen`. -/
def sample_lun_empty (gen : Nat) : spdk_scsi_lun :=
  { reg_head := [], pr_generation := gen, reservation := { holder := none, rtype := 0 } }

/-- A LUN with the registrants N1 and N2, in this order, and the given reservation. -/
def sample_lun_two (gen : Nat) (holder : Option Nat) (rtype : Nat) : spdk_scsi_lun :=
  { reg_head := [sample_reg_1, sample_reg_2], pr_generation := gen,
    reservation := { holder := holder, rtype := rtype } }

/-- A LUN with the registrants N2 and N1, in this order, and the given reservation. -/
def sample_lun_two_rev (gen : Nat) (holder : Option Nat) (rtype : Nat) : spdk_scsi_lun :=
  { reg_head := [sample_reg_2, sample_reg_1], pr_generation := gen,
    reservation := { holder := holder, rtype := rtype } }

instance (lun : spdk_scsi_lun) : Decidable (nodes_distinct lun) := by
  unfold nodes_distinct
  infer_instance

instance (lun : spdk_scsi_lun) : Decidable (nexus_unique lun) := by
  unfold nexus_unique
  infer_instance

/-- Parameter list with reservation key 0x1234 and a zero service action key. -/
def sample_param_unregister : spdk_scsi_pr_out_param_list :=
  { rkey := [0, 0, 0, 0, 0, 0, 0x12, 0x34], sa_rkey := [0, 0, 0, 0, 0, 0, 0, 0],
    aptpl := 0, spec_i_pt := 0, all_tg_pt := 0 }

/-- Scenario 1: N1 registers key 0x1234 on an empty LUN at generation 0. -/
def sample_call_register : Int × spdk_scsi_task :=
  spdk_scsi_pr_out_register sample_decls (some 4096) (sample_task_1 (sample_lun_empty 0))
    SPDK_SCSI_PR_OUT_REGISTER 0 0x1234 0 0 0

/-- Scenario 3: N1 holds a write-exclusive reservation (type 1), N2 is also registered,
and N1 unregisters with its key. -/
def sample_call_unregister_holder : Int × spdk_scsi_task :=
  spdk_scsi_pr_out_register sample_decls none (sample_task_1 (sample_lun_two 5 (some 4096) 1))
    SPDK_SCSI_PR_OUT_REGISTER 0x1234 0 0 0 0

/-- Scenario 4: the reservation is write-exclusive-all-registrants (type 7) with stored
holder N1, N2 is also registered, and N1 unregisters with its key. -/
def sample_call_unregister_all_regs : Int × spdk_scsi_task :=
  spdk_scsi_pr_out_register sample_decls none (sample_task_1 (sample_lun_two 5 (some 4096) 7))
    SPDK_SCSI_PR_OUT_REGISTER 0x1234 0 0 0 0

/-- N2, second in the registry, replaces its key 0x5678 by 0xabcd at generation 5. -/
def sample_call_replace : Int × spdk_scsi_task :=
  spdk_scsi_pr_out_register sample_decls none (sample_task_2 (sample_lun_two 5 (some 4096) 1))
    SPDK_SCSI_PR_OUT_REGISTER 0x5678 0xabcd 0 0 0

/-- N2 replaces its key with the counter at the maximum of 32 bits. -/
def sample_call_replace_at_max : Int × spdk_scsi_task :=
  spdk_scsi_pr_out_register sample_decls none
    (sample_task_2 (sample_lun_two 4294967295 (some 4096) 1))
    SPDK_SCSI_PR_OUT_REGISTER 0x5678 0xabcd 0 0 0

/-- PERSISTENT RESERVE OUT, service action REGISTER, by which N1 unregisters at
generation 5. -/
def sample_call_pr_out : Int × spdk_scsi_task :=
  spdk_scsi_pr_out sample_decls none (sample_task_1 (sample_lun_two 5 none 0))
    [0x5f, 0x00] sample_param_unregister 24

/-- The same command with the counter at the maximum of 32 bits. -/
def sample_call_pr_out_at_max : Int × spdk_scsi_task :=
  spdk_scsi_pr_out sample_decls none (sample_task_1 (sample_lun_two 4294967295 none 0))
    [0x5f, 0x00] sample_param_unregister 24

/-- Scenario 6 through the dispatcher: REGISTER with both keys zero from the unregistered
nexus N1. -/
def sample_call_pr_out_noop : Int × spdk_scsi_task :=
  spdk_scsi_pr_out sample_decls none (sample_task_1 (sample_lun_empty 3)) [0x5f, 0x00]
    { rkey := [0, 0, 0, 0, 0, 0, 0, 0], sa_rkey := [0, 0, 0, 0, 0, 0, 0, 0],
      aptpl := 0, spec_i_pt := 0, all_tg_pt := 0 } 24

/-- N1 registers key 0x1234 on an empty LUN and the allocation of the registrant fails. -/
def sample_call_register_no_memory : Int × spdk_scsi_task :=
  spdk_scsi_pr_out_register sample_decls none (sample_task_1 (sample_lun_empty 3))
    SPDK_SCSI_PR_OUT_REGISTER 0 0x1234 0 0 0

/-- The block handed out by `calloc`, if any, is storage that no node of the queue
occupies (an allocator never returns live storage). -/
def calloc_fresh (calloc : Option Nat) (lun : spdk_scsi_lun) : Prop :=
  ∀ r ∈ lun.reg_head, calloc ≠ some r.addr

/-- The stored holder is NULL or points to a node of the registrant queue. -/
def holder_in_registry (lun : spdk_scsi_lun) : Prop :=
  lun.reservation.holder = none ∨
    ∃ r ∈ lun.reg_head, lun.reservation.holder = some r.addr

/-- An unset reservation type carries no stored holder: the only state with type 0 is
Unreserved. The code writes the holder only together with an all-registrants type (line
121) or zeroes type and holder together (line 125), so every state it produces from a
zeroed LUN is of this kind. -/
def unset_type_no_holder (lun : spdk_scsi_lun) : Prop :=
  lun.reservation.rtype = 0 → lun.reservation.holder = none

instance (lun : spdk_scsi_lun) : Decidable (unset_type_no_holder lun) := by
  unfold unset_type_no_holder
  infer_instance

instance (calloc : Option Nat) (lun : spdk_scsi_lun) : Decidable (calloc_fresh calloc lun) := by
  unfold calloc_fresh
  infer_instance

instance (lun : spdk_scsi_lun) : Decidable (holder_in_registry lun) := by
  unfold holder_in_registry
  infer_instance

/-- A LUN with the single registrant N1 and the given reservation. -/
def sample_lun_one (gen : Nat) (holder : Option Nat) (rtype : Nat) : spdk_scsi_lun :=
  { reg_head := [sample_reg_1], pr_generation := gen,
    reservation := { holder := holder, rtype := rtype } }

/-- N1, the only registrant and holder of a write-exclusive reservation, unregisters
through the dispatcher. -/
def sample_call_pr_out_last_holder_leaves : Int × spdk_scsi_task :=
  spdk_scsi_pr_out sample_decls none (sample_task_1 (sample_lun_one 5 (some 4096) 1))
    [0x5f, 0x00] sample_param_unregister 24

/-- Parameter list with reservation key 0x1234 and service action key 0x4321. -/
def sample_param_replace : spdk_scsi_pr_out_param_list :=
  { rkey := [0, 0, 0, 0, 0, 0, 0x12, 0x34], sa_rkey := [0, 0, 0, 0, 0, 0, 0x43, 0x21],
    aptpl := 0, spec_i_pt := 0, all_tg_pt := 0 }

/-- Parameter list with a zero reservation key and service action key 0x1234. -/
def sample_param_register : spdk_scsi_pr_out_param_list :=
  { rkey := [0, 0, 0, 0, 0, 0, 0, 0], sa_rkey := [0, 0, 0, 0, 0, 0, 0x12, 0x34],
    aptpl := 0, spec_i_pt := 0, all_tg_pt := 0 }

/-- A LUN whose only registrant is N2, without reservation, at generation 1. -/
def sample_lun_second_only : spdk_scsi_lun :=
  { reg_head := [sample_reg_2], pr_generation := 1,
    reservation := { holder := none, rtype := 0 } }

/-- Initiator port of nexus N3. -/
def sample_initiator_3 : spdk_scsi_port :=
  { addr := 102, name := [105, 51], transport_id := [5, 0, 0, 2, 105, 51],
    transport_id_len := 6, index := 0 }

/-- Registrant of nexus N3, key 0x9abc, stored at address 12288. -/
def sample_reg_3 : spdk_scsi_pr_registrant :=
  { addr := 12288, rkey := 0x9abc, relative_target_port_id := 1, transport_id_len := 6,
    transport_id := [5, 0, 0, 2, 105, 51], initiator_port_name := [105, 51],
    target_port_name := [116, 49], initiator_port := 102, target_port := 200 }

/-- A task of nexus N3 on the given LUN state, nothing reported yet. -/
def sample_task_3 (lun : spdk_scsi_lun) : spdk_scsi_task :=
  { lun := lun, initiator_port := sample_initiator_3, target_port := sample_target,
    status_reports := [] }

/-- A LUN with the registrants N1, N2 and N3, in this order, and the given reservation. -/
def sample_lun_three (gen : Nat) (holder : Option Nat) (rtype : Nat) : spdk_scsi_lun :=
  { reg_head := [sample_reg_1, sample_reg_2, sample_reg_3], pr_generation := gen,
    reservation := { holder := holder, rtype := rtype } }

/-- The reservation is write-exclusive-all-registrants (type 7) with stored holder N2;
N3, which is not the stored holder, unregisters with its key. -/
def sample_call_unregister_non_holder : Int × spdk_scsi_task :=
  spdk_scsi_pr_out_register sample_decls none
    (sample_task_3 (sample_lun_three 5 (some 8192) 7))
    SPDK_SCSI_PR_OUT_REGISTER 0x9abc 0 0 0 0

/-- A LUN whose only registrant is N2, holder of a write-exclusive reservation (type 1),
at generation `gen`. -/
def sample_lun_second (gen : Nat) : spdk_scsi_lun :=
  { reg_head := [sample_reg_2], pr_generation := gen,
    reservation := { holder := some 8192, rtype := 1 } }

/-- First half of the round trip: N1 registers key 0x1234 at generation `gen`. -/
def sample_round_trip_first (gen : Nat) : Int × spdk_scsi_task :=
  spdk_scsi_pr_out_register sample_decls (some 4096) (sample_task_1 (sample_lun_second gen))
    SPDK_SCSI_PR_OUT_REGISTER 0 0x1234 0 0 0

/-- Second half of the round trip: N1 unregisters with key 0x1234. -/
def sample_round_trip_second (gen : Nat) : Int × spdk_scsi_task :=
  spdk_scsi_pr_out_register sample_decls none (sample_round_trip_first gen).2
    SPDK_SCSI_PR_OUT_REGISTER 0x1234 0 0 0 0

/-! ## Failure paths -/

/-- C1: atomicity on failure. Whenever `spdk_scsi_pr_out_register` returns an error, for
any LUN state, requesting nexus, action, keys, feature flags and allocation outcome, the
registry, the reservation type, the stored holder and the generation counter are exactly
what they were before the call. -/
theorem register_failure_is_atomic (H : spdk_scsi_decls) (calloc : Option Nat)
    (task : spdk_scsi_task) (action rkey sa_rkey spec_i_pt all_tg_pt aptpl : Nat)
    (hfail : (spdk_scsi_pr_out_register H calloc task action rkey sa_rkey
      spec_i_pt all_tg_pt aptpl).1 ≠ 0) :
    (spdk_scsi_pr_out_register H calloc task action rkey sa_rkey
        spec_i_pt all_tg_pt aptpl).2.lun.reg_head = task.lun.reg_head ∧
    (spdk_scsi_pr_out_register H calloc task action rkey sa_rkey
        spec_i_pt all_tg_pt aptpl).2.lun.reservation.rtype = task.lun.reservation.rtype ∧
    (spdk_scsi_pr_out_register H calloc task action rkey sa_rkey
        spec_i_pt all_tg_pt aptpl).2.lun.reservation.holder = task.lun.reservation.holder ∧
    (spdk_scsi_pr_out_register H calloc task action rkey sa_rkey
        spec_i_pt all_tg_pt aptpl).2.lun.pr_generation = task.lun.pr_generation := by
  revert hfail
  unfold spdk_scsi_pr_out_register spdk_scsi_pr_out_register_error_exit
    spdk_scsi_task_set_status spdk_scsi_pr_register_registrant
  cases spdk_scsi_pr_get_registrant task.lun task.initiator_port.addr
      task.target_port.addr <;> cases calloc <;> simp only [] <;> split_ifs <;> simp

/-- Witness of C1: the allocation failure while N1 registers on an empty LUN. -/
theorem register_failure_is_atomic_witness :
    (spdk_scsi_pr_out_register sample_decls none (sample_task_1 (sample_lun_empty 3))
      SPDK_SCSI_PR_OUT_REGISTER 0 0x1234 0 0 0).1 ≠ 0 ∧
    (spdk_scsi_pr_out_register sample_decls none (sample_task_1 (sample_lun_empty 3))
      SPDK_SCSI_PR_OUT_REGISTER 0 0x1234 0 0 0).2.lun.reg_head = [] ∧
    (spdk_scsi_pr_out_register sample_decls none (sample_task_1 (sample_lun_empty 3))
      SPDK_SCSI_PR_OUT_REGISTER 0 0x1234 0 0 0).2.lun.reservation.rtype = 0 ∧
    (spdk_scsi_pr_out_register sample_decls none (sample_task_1 (sample_lun_empty 3))
      SPDK_SCSI_PR_OUT_REGISTER 0 0x1234 0 0 0).2.lun.reservation.holder = none ∧
    (spdk_scsi_pr_out_register sample_decls none (sample_task_1 (sample_lun_empty 3))
      SPDK_SCSI_PR_OUT_REGISTER 0 0x1234 0 0 0).2.lun.pr_generation = 3 :=
  ⟨by decide, register_failure_is_atomic sample_decls none
    (sample_task_1 (sample_lun_empty 3)) SPDK_SCSI_PR_OUT_REGISTER 0 0x1234 0 0 0 (by decide)⟩

/-- C2: unsupported feature flags are rejected first. If any of `spec_i_pt`, `all_tg_pt`,
`aptpl` is non-zero then, for any LUN state, requesting nexus, action and keys, the call
returns the error `-EINVAL`, reports exactly CHECK CONDITION / ILLEGAL REQUEST / INVALID
FIELD IN CDB on the task (a status different from RESERVATION CONFLICT), and leaves the
LUN (registry, reservation, generation counter) unchanged. -/
theorem register_rejects_unsupported_flags (H : spdk_scsi_decls) (calloc : Option Nat)
    (task : spdk_scsi_task) (action rkey sa_rkey spec_i_pt all_tg_pt aptpl : Nat)
    (hflag : spec_i_pt ≠ 0 ∨ all_tg_pt ≠ 0 ∨ aptpl ≠ 0) :
    (spdk_scsi_pr_out_register H calloc task action rkey sa_rkey
        spec_i_pt all_tg_pt aptpl).1 = -EINVAL ∧
    (spdk_scsi_pr_out_register H calloc task action rkey sa_rkey
        spec_i_pt all_tg_pt aptpl).1 ≠ 0 ∧
    (spdk_scsi_pr_out_register H calloc task action rkey sa_rkey
        spec_i_pt all_tg_pt aptpl).2.status_reports =
      task.status_reports ++ [{ sc := SPDK_SCSI_STATUS_CHECK_CONDITION,
                                sk := SPDK_SCSI_SENSE_ILLEGAL_REQUEST,
                                asc := SPDK_SCSI_ASC_INVALID_FIELD_IN_CDB,
                                ascq := SPDK_SCSI_ASC_NO_ADDITIONAL_SENSE }] ∧
    SPDK_SCSI_STATUS_CHECK_CONDITION ≠ SPDK_SCSI_STATUS_RESERVATION_CONFLICT ∧
    (spdk_scsi_pr_out_register H calloc task action rkey sa_rkey
        spec_i_pt all_tg_pt aptpl).2.lun = task.lun := by
  have hc : (spec_i_pt != 0 || all_tg_pt != 0 || aptpl != 0) = true := by
    rcases hflag with h | h | h <;> simp [h]
  unfold spdk_scsi_pr_out_register
  rw [if_pos hc]
  refine ⟨rfl, ?_, rfl, by decide, rfl⟩
  simp [spdk_scsi_pr_out_register_error_exit, EINVAL]

/-- Witness of C2: REGISTER AND IGNORE EXISTING KEY from the registered nexus N1 with a
wrong key and `spec_i_pt` set. -/
theorem register_rejects_unsupported_flags_witness :
    ((1 : Nat) ≠ 0 ∨ (0 : Nat) ≠ 0 ∨ (0 : Nat) ≠ 0) ∧
    ((spdk_scsi_pr_out_register sample_decls (some 12288)
        (sample_task_1 (sample_lun_two 7 (some 4096) 1))
        SPDK_SCSI_PR_OUT_REG_AND_IGNORE_KEY 0x9999 0x4321 1 0 0).1 = -EINVAL ∧
     (spdk_scsi_pr_out_register sample_decls (some 12288)
        (sample_task_1 (sample_lun_two 7 (some 4096) 1))
        SPDK_SCSI_PR_OUT_REG_AND_IGNORE_KEY 0x9999 0x4321 1 0 0).1 ≠ 0 ∧
     (spdk_scsi_pr_out_register sample_decls (some 12288)
        (sample_task_1 (sample_lun_two 7 (some 4096) 1))
        SPDK_SCSI_PR_OUT_REG_AND_IGNORE_KEY 0x9999 0x4321 1 0 0).2.status_reports =
       [{ sc := 0x02, sk := 0x05, asc := 0x24, ascq := 0x00 }] ∧
     SPDK_SCSI_STATUS_CHECK_CONDITION ≠ SPDK_SCSI_STATUS_RESERVATION_CONFLICT ∧
     (spdk_scsi_pr_out_register sample_decls (some 12288)
        (sample_task_1 (sample_lun_two 7 (some 4096) 1))
        SPDK_SCSI_PR_OUT_REG_AND_IGNORE_KEY 0x9999 0x4321 1 0 0).2.lun =
       sample_lun_two 7 (some 4096) 1) :=
  ⟨by decide, register_rejects_unsupported_flags sample_decls (some 12288)
    (sample_task_1 (sample_lun_two 7 (some 4096) 1))
    SPDK_SCSI_PR_OUT_REG_AND_IGNORE_KEY 0x9999 0x4321 1 0 0 (by decide)⟩

/-- C3: reservation conflict exactly on a failed key check. For a plain REGISTER with the
three feature flags clear, the call fails reporting RESERVATION CONFLICT / NO SENSE / no
additional sense code if and only if the requesting nexus is unregistered and `rkey` is
non-zero, or it is registered and `rkey` differs from the stored key; in both cases the
error is `-EINVAL` and the LUN (registry, reservation, generation counter) is unchanged. -/
theorem register_conflict_iff_key_check_fails (H : spdk_scsi_decls) (calloc : Option Nat)
    (task : spdk_scsi_task) (rkey sa_rkey : Nat) :
    (((spdk_scsi_pr_out_register H calloc task SPDK_SCSI_PR_OUT_REGISTER rkey sa_rkey
          0 0 0).1 ≠ 0 ∧
      (spdk_scsi_pr_out_register H calloc task SPDK_SCSI_PR_OUT_REGISTER rkey sa_rkey
          0 0 0).2.status_reports =
        task.status_reports ++ [{ sc := SPDK_SCSI_STATUS_RESERVATION_CONFLICT,
                                  sk := SPDK_SCSI_SENSE_NO_SENSE,
                                  asc := SPDK_SCSI_ASC_NO_ADDITIONAL_SENSE,
                                  ascq := SPDK_SCSI_ASC_NO_ADDITIONAL_SENSE }]) ↔
     ((spdk_scsi_pr_get_registrant task.lun task.initiator_port.addr
          task.target_port.addr = none ∧ rkey ≠ 0) ∨
      (∃ reg, spdk_scsi_pr_get_registrant task.lun task.initiator_port.addr
          task.target_port.addr = some reg ∧ rkey ≠ reg.rkey))) ∧
    (((spdk_scsi_pr_get_registrant task.lun task.initiator_port.addr
          task.target_port.addr = none ∧ rkey ≠ 0) ∨
      (∃ reg, spdk_scsi_pr_get_registrant task.lun task.initiator_port.addr
          task.target_port.addr = some reg ∧ rkey ≠ reg.rkey)) →
     (spdk_scsi_pr_out_register H calloc task SPDK_SCSI_PR_OUT_REGISTER rkey sa_rkey
          0 0 0).1 = -EINVAL ∧
     (spdk_scsi_pr_out_register H calloc task SPDK_SCSI_PR_OUT_REGISTER rkey sa_rkey
          0 0 0).2.lun = task.lun) := by
  unfold spdk_scsi_pr_out_register spdk_scsi_pr_out_register_error_exit
    spdk_scsi_task_set_status spdk_scsi_pr_register_registrant
  cases hreg : spdk_scsi_pr_get_registrant task.lun task.initiator_port.addr
      task.target_port.addr with
  | none =>
    by_cases hk : rkey = 0 <;> by_cases hs : sa_rkey = 0 <;> cases calloc <;>
      simp [hk, hs, EINVAL, ENOMEM]
  | some reg =>
    by_cases hk : rkey = reg.rkey <;> by_cases hs : sa_rkey = 0 <;>
      simp [hk, hs, EINVAL]

/-- Witness of C3: N1 is registered with key 0x1234 and presents 0x9999 (scenario 2). -/
theorem register_conflict_iff_key_check_fails_witness :
    (spdk_scsi_pr_get_registrant (sample_lun_two 7 none 0) 100 200 = some sample_reg_1 ∧
      (0x9999 : Nat) ≠ sample_reg_1.rkey) ∧
    (spdk_scsi_pr_out_register sample_decls none
        (sample_task_1 (sample_lun_two 7 none 0))
        SPDK_SCSI_PR_OUT_REGISTER 0x9999 0x4321 0 0 0).1 = -EINVAL ∧
    (spdk_scsi_pr_out_register sample_decls none
        (sample_task_1 (sample_lun_two 7 none 0))
        SPDK_SCSI_PR_OUT_REGISTER 0x9999 0x4321 0 0 0).2.lun = sample_lun_two 7 none 0 :=
  ⟨⟨by decide, by decide⟩,
    (register_conflict_iff_key_check_fails sample_decls none
      (sample_task_1 (sample_lun_two 7 none 0)) 0x9999 0x4321).2
      (Or.inr ⟨sample_reg_1, by decide, by decide⟩)⟩

/-! ## The successful paths -/

/-- C9: a zero service action key on an unregistered nexus is a no-op. If the requesting
nexus has no registrant, the feature flags are clear, `sa_rkey` is zero and either `rkey`
is zero or the action is REGISTER AND IGNORE EXISTING KEY, the call succeeds and the task,
and with it the registry, the reservation type, the stored holder and the generation
counter, is exactly what it was: no registrant is created and nothing is reported. -/
theorem register_zero_key_is_noop (H : spdk_scsi_decls) (calloc : Option Nat)
    (task : spdk_scsi_task) (action rkey : Nat)
    (hnone : spdk_scsi_pr_get_registrant task.lun task.initiator_port.addr
      task.target_port.addr = none)
    (hkey : rkey = 0 ∨ action = SPDK_SCSI_PR_OUT_REG_AND_IGNORE_KEY) :
    (spdk_scsi_pr_out_register H calloc task action rkey 0 0 0 0).1 = 0 ∧
    (spdk_scsi_pr_out_register H calloc task action rkey 0 0 0 0).2 = task ∧
    (spdk_scsi_pr_out_register H calloc task action rkey 0 0 0 0).2.lun.reg_head =
      task.lun.reg_head ∧
    (spdk_scsi_pr_out_register H calloc task action rkey 0 0 0 0).2.lun.reservation =
      task.lun.reservation ∧
    (spdk_scsi_pr_out_register H calloc task action rkey 0 0 0 0).2.lun.pr_generation =
      task.lun.pr_generation := by
  have hcheck : (rkey != 0 && action == SPDK_SCSI_PR_OUT_REGISTER) = false := by
    rcases hkey with h | h <;> simp [h, SPDK_SCSI_PR_OUT_REG_AND_IGNORE_KEY,
      SPDK_SCSI_PR_OUT_REGISTER]
  unfold spdk_scsi_pr_out_register
  simp [hnone, hcheck]

/-- Witness of C9: REGISTER with `rkey` = 0 and `sa_rkey` = 0 from the unregistered nexus
N1 (scenario 6). -/
theorem register_zero_key_is_noop_witness :
    spdk_scsi_pr_get_registrant (sample_lun_empty 3) 100 200 = none ∧
    ((0 : Nat) = 0 ∨ SPDK_SCSI_PR_OUT_REGISTER = SPDK_SCSI_PR_OUT_REG_AND_IGNORE_KEY) ∧
    ((spdk_scsi_pr_out_register sample_decls (some 4096)
        (sample_task_1 (sample_lun_empty 3)) SPDK_SCSI_PR_OUT_REGISTER 0 0 0 0 0).1 = 0 ∧
     (spdk_scsi_pr_out_register sample_decls (some 4096)
        (sample_task_1 (sample_lun_empty 3)) SPDK_SCSI_PR_OUT_REGISTER 0 0 0 0 0).2 =
       sample_task_1 (sample_lun_empty 3) ∧
     (spdk_scsi_pr_out_register sample_decls (some 4096)
        (sample_task_1 (sample_lun_empty 3)) SPDK_SCSI_PR_OUT_REGISTER 0 0 0 0 0).2.lun.reg_head =
       [] ∧
     (spdk_scsi_pr_out_register sample_decls (some 4096)
        (sample_task_1 (sample_lun_empty 3)) SPDK_SCSI_PR_OUT_REGISTER 0 0 0 0 0).2.lun.reservation =
       { holder := none, rtype := 0 } ∧
     (spdk_scsi_pr_out_register sample_decls (some 4096)
        (sample_task_1 (sample_lun_empty 3)) SPDK_SCSI_PR_OUT_REGISTER 0 0 0 0 0).2.lun.pr_generation =
       3) :=
  ⟨by decide, by decide, register_zero_key_is_noop sample_decls (some 4096)
    (sample_task_1 (sample_lun_empty 3)) SPDK_SCSI_PR_OUT_REGISTER 0 (by decide)
    (Or.inl rfl)⟩

/-! ## Queue lemmas -/

/-- A successful lookup splits the queue at the node found: the node matches the nexus
and no earlier node does. -/
theorem get_registrant_some_split (lun : spdk_scsi_lun) (ip tp : Nat)
    (reg : spdk_scsi_pr_registrant)
    (h : spdk_scsi_pr_get_registrant lun ip tp = some reg) :
    reg.initiator_port = ip ∧ reg.target_port = tp ∧
    ∃ pre post, lun.reg_head = pre ++ reg :: post ∧
      ∀ a ∈ pre, ¬ (a.initiator_port = ip ∧ a.target_port = tp) := by
  unfold spdk_scsi_pr_get_registrant at h
  rw [List.find?_eq_some] at h
  obtain ⟨hp, pre, post, hsplit, hpre⟩ := h
  simp only [Bool.and_eq_true, beq_iff_eq] at hp
  refine ⟨hp.1.symm, hp.2.symm, pre, post, hsplit, ?_⟩
  intro a ha hmatch
  have := hpre a ha
  simp [hmatch.1, hmatch.2] at this

/-- Unlinking a node of a queue of distinct nodes removes that node and nothing else. -/
theorem TAILQ_REMOVE_split (pre post : List spdk_scsi_pr_registrant)
    (reg : spdk_scsi_pr_registrant)
    (hd : (pre ++ reg :: post).Pairwise (fun a b => a.addr ≠ b.addr)) :
    TAILQ_REMOVE (pre ++ reg :: post) reg.addr = pre ++ post := by
  rw [List.pairwise_append] at hd
  obtain ⟨_, hpost, hcross⟩ := hd
  rw [List.pairwise_cons] at hpost
  unfold TAILQ_REMOVE
  rw [List.filter_append, List.filter_cons]
  have h1 : List.filter (fun r => r.addr != reg.addr) pre = pre := by
    rw [List.filter_eq_self]
    intro a ha
    simpa using hcross a ha reg (List.mem_cons_self _ _)
  have h2 : List.filter (fun r => r.addr != reg.addr) post = post := by
    rw [List.filter_eq_self]
    intro a ha
    simpa using (hpost.1 a ha).symm
  simp [h1, h2]

/-- Writing the key of a node of a queue of distinct nodes changes that node and nothing
else. -/
theorem replace_key_split (pre post : List spdk_scsi_pr_registrant)
    (reg : spdk_scsi_pr_registrant) (sa_rkey : Nat)
    (hd : (pre ++ reg :: post).Pairwise (fun a b => a.addr ≠ b.addr)) :
    (pre ++ reg :: post).map
        (fun r => if r.addr == reg.addr then { r with rkey := sa_rkey } else r) =
      pre ++ { reg with rkey := sa_rkey } :: post := by
  rw [List.pairwise_append] at hd
  obtain ⟨_, hpost, hcross⟩ := hd
  rw [List.pairwise_cons] at hpost
  rw [List.map_append, List.map_cons]
  have h1 : pre.map (fun r => if r.addr == reg.addr then { r with rkey := sa_rkey } else r)
      = pre := by
    conv_rhs => rw [← List.map_id pre]
    apply List.map_congr_left
    intro a ha
    have := hcross a ha reg (List.mem_cons_self _ _)
    simp [this]
  have h2 : post.map (fun r => if r.addr == reg.addr then { r with rkey := sa_rkey } else r)
      = post := by
    conv_rhs => rw [← List.map_id post]
    apply List.map_congr_left
    intro a ha
    have := (hpost.1 a ha).symm
    simp [this]
  rw [h1, h2]
  simp

/-- On a found registrant the key check of a plain REGISTER passes when the key matches,
and no check is made for another action. -/
theorem key_check_passes (action rkey stored : Nat)
    (hkey : rkey = stored ∨ action = SPDK_SCSI_PR_OUT_REG_AND_IGNORE_KEY) :
    (rkey != stored && action == SPDK_SCSI_PR_OUT_REGISTER) = false := by
  rcases hkey with h | h <;>
    simp [h, SPDK_SCSI_PR_OUT_REG_AND_IGNORE_KEY, SPDK_SCSI_PR_OUT_REGISTER]

/-! ## Registering a new nexus -/

/-- C4, amended: registering a new nexus. If the requesting nexus has no registrant, the
feature flags are clear, `sa_rkey` is non-zero, either `rkey` is zero or the action is
REGISTER AND IGNORE EXISTING KEY, and the allocation succeeds with block `p`, the call
succeeds; the registry is the previous one with exactly one registrant appended at the
end, stored at `p`, whose nexus is the requesting nexus and whose key is `sa_rkey`; the
reservation type and stored holder are unchanged; the generation counter is the
previous one plus one modulo two to the width of the counter, hence exactly one more
unless the counter was at its maximum. -/
theorem register_new_nexus_appends (H : spdk_scsi_decls) (p : Nat) (task : spdk_scsi_task)
    (action rkey sa_rkey : Nat)
    (hnone : spdk_scsi_pr_get_registrant task.lun task.initiator_port.addr
      task.target_port.addr = none)
    (hsa : sa_rkey ≠ 0)
    (hkey : rkey = 0 ∨ action = SPDK_SCSI_PR_OUT_REG_AND_IGNORE_KEY) :
    (spdk_scsi_pr_out_register H (some p) task action rkey sa_rkey 0 0 0).1 = 0 ∧
    (∃ reg, (spdk_scsi_pr_out_register H (some p) task action rkey sa_rkey
          0 0 0).2.lun.reg_head = task.lun.reg_head ++ [reg] ∧
      reg.addr = p ∧ reg.initiator_port = task.initiator_port.addr ∧
      reg.target_port = task.target_port.addr ∧ reg.rkey = sa_rkey) ∧
    (spdk_scsi_pr_out_register H (some p) task action rkey sa_rkey
        0 0 0).2.lun.reservation = task.lun.reservation ∧
    (spdk_scsi_pr_out_register H (some p) task action rkey sa_rkey
        0 0 0).2.lun.pr_generation =
      (task.lun.pr_generation + 1) % 2 ^ H.pr_generation_bits ∧
    (task.lun.pr_generation + 1 < 2 ^ H.pr_generation_bits →
      (spdk_scsi_pr_out_register H (some p) task action rkey sa_rkey
        0 0 0).2.lun.pr_generation = task.lun.pr_generation + 1) := by
  have hcheck := key_check_passes action rkey 0 hkey
  have hr : spdk_scsi_pr_out_register H (some p) task action rkey sa_rkey 0 0 0 =
      ((spdk_scsi_pr_register_registrant H (some p) task.lun task.initiator_port
          task.target_port sa_rkey).1,
       { task with lun := (spdk_scsi_pr_register_registrant H (some p) task.lun
          task.initiator_port task.target_port sa_rkey).2 }) := by
    unfold spdk_scsi_pr_out_register
    simp [hnone, hcheck, hsa]
  rw [hr]
  refine ⟨rfl, ⟨_, rfl, rfl, rfl, rfl, rfl⟩, rfl, rfl, ?_⟩
  intro hlt
  simp [spdk_scsi_pr_register_registrant, pr_generation_incr, Nat.mod_eq_of_lt hlt]

/-- Witness of C4: N1 registers key 0x1234 on an empty LUN at generation 0 (scenario 1). -/
theorem register_new_nexus_appends_witness :
    spdk_scsi_pr_get_registrant (sample_lun_empty 0) 100 200 = none ∧
    (0x1234 : Nat) ≠ 0 ∧
    ((0 : Nat) = 0 ∨ SPDK_SCSI_PR_OUT_REGISTER = SPDK_SCSI_PR_OUT_REG_AND_IGNORE_KEY) ∧
    (sample_call_register.1 = 0 ∧
     (∃ reg, sample_call_register.2.lun.reg_head = [] ++ [reg] ∧
        reg.addr = 4096 ∧ reg.initiator_port = 100 ∧ reg.target_port = 200 ∧
        reg.rkey = 0x1234) ∧
     sample_call_register.2.lun.reservation = { holder := none, rtype := 0 } ∧
     sample_call_register.2.lun.pr_generation = (0 + 1) % 2 ^ 32 ∧
     (0 + 1 < 2 ^ 32 → sample_call_register.2.lun.pr_generation = 0 + 1)) :=
  ⟨by decide, by decide, Or.inl rfl,
    register_new_nexus_appends sample_decls 4096 (sample_task_1 (sample_lun_empty 0))
      SPDK_SCSI_PR_OUT_REGISTER 0 0x1234 (by decide) (by decide) (Or.inl rfl)⟩

/-- C4 as stated fails: with a 32-bit generation counter at 4294967295, a successful
registration of the new nexus N1 leaves the counter at 0, not at one more than before. -/
theorem register_new_nexus_generation_wraps :
    spdk_scsi_pr_get_registrant (sample_lun_empty 4294967295) 100 200 = none ∧
    (spdk_scsi_pr_out_register sample_decls (some 4096)
        (sample_task_1 (sample_lun_empty 4294967295))
        SPDK_SCSI_PR_OUT_REGISTER 0 0x1234 0 0 0).1 = 0 ∧
    (spdk_scsi_pr_out_register sample_decls (some 4096)
        (sample_task_1 (sample_lun_empty 4294967295))
        SPDK_SCSI_PR_OUT_REGISTER 0 0x1234 0 0 0).2.lun.pr_generation = 0 ∧
    ¬ ((spdk_scsi_pr_out_register sample_decls (some 4096)
        (sample_task_1 (sample_lun_empty 4294967295))
        SPDK_SCSI_PR_OUT_REGISTER 0 0x1234 0 0 0).2.lun.pr_generation =
      (sample_task_1 (sample_lun_empty 4294967295)).lun.pr_generation + 1) := by
  decide

/-! ## Frame lemmas of the mutators -/

/-- Unregistering unlinks the node and touches no other part of the queue. -/
theorem unregister_reg_head (H : spdk_scsi_decls) (lun : spdk_scsi_lun) (reg : Nat) :
    (spdk_scsi_pr_unregister_registrant H lun reg).reg_head =
      TAILQ_REMOVE lun.reg_head reg := by
  unfold spdk_scsi_pr_unregister_registrant spdk_scsi_pr_release_reservation
    pr_generation_incr
  simp only []
  split_ifs <;> rfl

/-- Unregistering increments the generation counter once. -/
theorem unregister_pr_generation (H : spdk_scsi_decls) (lun : spdk_scsi_lun) (reg : Nat) :
    (spdk_scsi_pr_unregister_registrant H lun reg).pr_generation =
      (lun.pr_generation + 1) % 2 ^ H.pr_generation_bits := by
  unfold spdk_scsi_pr_unregister_registrant spdk_scsi_pr_release_reservation
    pr_generation_incr
  simp only []
  split_ifs <;> rfl

/-- The reservation after unregistering, by cases on the reservation type. -/
theorem unregister_reservation (H : spdk_scsi_decls) (lun : spdk_scsi_lun) (reg : Nat) :
    (spdk_scsi_pr_unregister_registrant H lun reg).reservation =
      if spdk_scsi_pr_is_all_registrants_type lun then
        (if TAILQ_REMOVE lun.reg_head reg = [] then { holder := none, rtype := 0 }
         else { lun.reservation with holder := TAILQ_FIRST (TAILQ_REMOVE lun.reg_head reg) })
      else
        (if lun.reservation.holder = some reg then { holder := none, rtype := 0 }
         else lun.reservation) := by
  unfold spdk_scsi_pr_unregister_registrant spdk_scsi_pr_release_reservation
    spdk_scsi_pr_registrant_is_holder pr_generation_incr TAILQ_EMPTY
  generalize TAILQ_REMOVE lun.reg_head reg = l
  by_cases hall : spdk_scsi_pr_is_all_registrants_type lun = true
  · have hall1 : ∀ q, spdk_scsi_pr_is_all_registrants_type
        { lun with reg_head := q } = true := fun _ => hall
    by_cases hemp : l = []
    · simp [hall, hall1, hemp]
    · simp [hall, hall1, hemp]
  · have hall1 : ∀ q, ¬ spdk_scsi_pr_is_all_registrants_type
        { lun with reg_head := q } = true := fun _ => hall
    by_cases hh : lun.reservation.holder = some reg
    · simp [hall, hall1, hh]
    · simp [hall, hall1, hh]

/-- The call on a registered nexus whose key check passes, with a zero service action
key, is the unregistration of the registrant found. -/
theorem pr_out_register_eq_unregister (H : spdk_scsi_decls) (calloc : Option Nat)
    (task : spdk_scsi_task) (action rkey : Nat) (reg : spdk_scsi_pr_registrant)
    (hreg : spdk_scsi_pr_get_registrant task.lun task.initiator_port.addr
      task.target_port.addr = some reg)
    (hkey : rkey = reg.rkey ∨ action = SPDK_SCSI_PR_OUT_REG_AND_IGNORE_KEY) :
    spdk_scsi_pr_out_register H calloc task action rkey 0 0 0 0 =
      (0, { task with lun := spdk_scsi_pr_unregister_registrant H task.lun reg.addr }) := by
  have hcheck := key_check_passes action rkey reg.rkey hkey
  unfold spdk_scsi_pr_out_register
  simp [hreg, hcheck]

/-- The call on a registered nexus whose key check passes, with a non-zero service action
key, is the replacement of the key of the registrant found. -/
theorem pr_out_register_eq_replace (H : spdk_scsi_decls) (calloc : Option Nat)
    (task : spdk_scsi_task) (action rkey sa_rkey : Nat) (reg : spdk_scsi_pr_registrant)
    (hreg : spdk_scsi_pr_get_registrant task.lun task.initiator_port.addr
      task.target_port.addr = some reg)
    (hsa : sa_rkey ≠ 0)
    (hkey : rkey = reg.rkey ∨ action = SPDK_SCSI_PR_OUT_REG_AND_IGNORE_KEY) :
    spdk_scsi_pr_out_register H calloc task action rkey sa_rkey 0 0 0 =
      (0, { task with lun :=
              spdk_scsi_pr_replace_registrant_key H task.lun reg.addr sa_rkey }) := by
  have hcheck := key_check_passes action rkey reg.rkey hkey
  unfold spdk_scsi_pr_out_register
  simp [hreg, hcheck, hsa]

/-! ## Unregistering -/

/-- C5: unregistering removes exactly the requester. On a LUN whose registrant nodes are
distinct objects and in which no two registrants share an I_T nexus, if the requesting
nexus is registered (registrant `reg`, key `reg.rkey`), the feature flags are clear,
`sa_rkey` is zero and either `rkey` is the stored key or the action is REGISTER AND
IGNORE EXISTING KEY, the call succeeds; the registry is the previous one with exactly the
node of `reg` taken out, all other registrants unchanged and in the same order; and a
lookup of the requesting nexus in the resulting LUN finds nothing. -/
theorem unregister_removes_requester (H : spdk_scsi_decls) (calloc : Option Nat)
    (task : spdk_scsi_task) (action rkey : Nat) (reg : spdk_scsi_pr_registrant)
    (hd : nodes_distinct task.lun) (hu : nexus_unique task.lun)
    (hreg : spdk_scsi_pr_get_registrant task.lun task.initiator_port.addr
      task.target_port.addr = some reg)
    (hkey : rkey = reg.rkey ∨ action = SPDK_SCSI_PR_OUT_REG_AND_IGNORE_KEY) :
    (spdk_scsi_pr_out_register H calloc task action rkey 0 0 0 0).1 = 0 ∧
    (∃ pre post, task.lun.reg_head = pre ++ reg :: post ∧
      (spdk_scsi_pr_out_register H calloc task action rkey 0 0 0 0).2.lun.reg_head =
        pre ++ post) ∧
    spdk_scsi_pr_get_registrant
      (spdk_scsi_pr_out_register H calloc task action rkey 0 0 0 0).2.lun
      task.initiator_port.addr task.target_port.addr = none := by
  rw [pr_out_register_eq_unregister H calloc task action rkey reg hreg hkey]
  obtain ⟨hip, htp, pre, post, hsplit, hpre⟩ :=
    get_registrant_some_split task.lun _ _ reg hreg
  have hrem : (spdk_scsi_pr_unregister_registrant H task.lun reg.addr).reg_head =
      pre ++ post := by
    rw [unregister_reg_head, hsplit]
    apply TAILQ_REMOVE_split
    rw [← hsplit]
    exact hd
  refine ⟨rfl, ⟨pre, post, hsplit, hrem⟩, ?_⟩
  unfold spdk_scsi_pr_get_registrant
  simp only []
  rw [hrem, List.find?_eq_none]
  intro x hx
  unfold nexus_unique at hu
  rw [hsplit, List.pairwise_append, List.pairwise_cons] at hu
  intro hc
  simp only [Bool.and_eq_true, beq_iff_eq] at hc
  rcases List.mem_append.mp hx with hx | hx
  · exact hpre x hx ⟨hc.1.symm, hc.2.symm⟩
  · exact hu.2.1.1 x hx ⟨hip.trans hc.1, htp.trans hc.2⟩

/-- C6: unregistering under a reservation that is not of an all-registrants type. If the
requesting nexus is registered (registrant `reg`) and the call is a successful
unregistration (flags clear, `sa_rkey` zero, key check passing), then: if `reg` was the
stored holder the reservation is reset to Unreserved, type unset and no holder, whatever
other registrants remain; if `reg` was not the stored holder, the reservation type and
the stored holder are exactly what they were. -/
theorem unregister_single_holder_resets (H : spdk_scsi_decls)
    (calloc : Option Nat) (task : spdk_scsi_task) (action rkey : Nat)
    (reg : spdk_scsi_pr_registrant)
    (hreg : spdk_scsi_pr_get_registrant task.lun task.initiator_port.addr
      task.target_port.addr = some reg)
    (hkey : rkey = reg.rkey ∨ action = SPDK_SCSI_PR_OUT_REG_AND_IGNORE_KEY)
    (htype : spdk_scsi_pr_is_all_registrants_type task.lun = false) :
    (spdk_scsi_pr_out_register H calloc task action rkey 0 0 0 0).1 = 0 ∧
    (task.lun.reservation.holder = some reg.addr →
      (spdk_scsi_pr_out_register H calloc task action rkey 0 0 0 0).2.lun.reservation.rtype
        = 0 ∧
      (spdk_scsi_pr_out_register H calloc task action rkey 0 0 0 0).2.lun.reservation.holder
        = none) ∧
    (task.lun.reservation.holder ≠ some reg.addr →
      (spdk_scsi_pr_out_register H calloc task action rkey 0 0 0 0).2.lun.reservation.rtype
        = task.lun.reservation.rtype ∧
      (spdk_scsi_pr_out_register H calloc task action rkey 0 0 0 0).2.lun.reservation.holder
        = task.lun.reservation.holder) := by
  rw [pr_out_register_eq_unregister H calloc task action rkey reg hreg hkey]
  simp only []
  rw [unregister_reservation, htype]
  refine ⟨trivial, ?_, ?_⟩
  · intro hh
    simp [hh]
  · intro hh
    simp [hh]

/-- C7: holder reassignment under an all-registrants reservation. On a LUN whose
registrant nodes are distinct objects, whose reservation type is write-exclusive-all-
registrants or exclusive-access-all-registrants, whose stored holder is the registrant
`reg` of the requesting nexus and whose registry contains another registrant, a
successful unregistration of `reg` leaves the reservation type unchanged; the registry
that remains is the previous one without `reg`, it has a first registrant, the stored
holder is that first registrant, and the stored holder is not `reg`. -/
theorem unregister_all_registrants_reassigns (H : spdk_scsi_decls)
    (calloc : Option Nat) (task : spdk_scsi_task) (action rkey : Nat)
    (reg : spdk_scsi_pr_registrant)
    (hd : nodes_distinct task.lun)
    (hreg : spdk_scsi_pr_get_registrant task.lun task.initiator_port.addr
      task.target_port.addr = some reg)
    (hkey : rkey = reg.rkey ∨ action = SPDK_SCSI_PR_OUT_REG_AND_IGNORE_KEY)
    (htype : task.lun.reservation.rtype = SPDK_SCSI_PR_WRITE_EXCLUSIVE_ALL_REGS ∨
      task.lun.reservation.rtype = SPDK_SCSI_PR_EXCLUSIVE_ACCESS_ALL_REGS)
    (hholder : task.lun.reservation.holder = some reg.addr)
    (hother : ∃ other, other ∈ task.lun.reg_head ∧ other ≠ reg) :
    (spdk_scsi_pr_out_register H calloc task action rkey 0 0 0 0).1 = 0 ∧
    (spdk_scsi_pr_out_register H calloc task action rkey 0 0 0 0).2.lun.reservation.rtype =
      task.lun.reservation.rtype ∧
    (∃ pre post first rest, task.lun.reg_head = pre ++ reg :: post ∧
      (spdk_scsi_pr_out_register H calloc task action rkey 0 0 0 0).2.lun.reg_head =
        pre ++ post ∧
      pre ++ post = first :: rest ∧
      (spdk_scsi_pr_out_register H calloc task action rkey 0 0 0 0).2.lun.reservation.holder =
        some first.addr ∧
      first.addr ≠ reg.addr) ∧
    (spdk_scsi_pr_out_register H calloc task action rkey 0 0 0 0).2.lun.reservation.holder ≠
      some reg.addr := by
  rw [pr_out_register_eq_unregister H calloc task action rkey reg hreg hkey]
  obtain ⟨_, _, pre, post, hsplit, _⟩ := get_registrant_some_split task.lun _ _ reg hreg
  have hdl : (pre ++ reg :: post).Pairwise (fun a b => a.addr ≠ b.addr) := by
    rw [← hsplit]
    exact hd
  have hrem : TAILQ_REMOVE task.lun.reg_head reg.addr = pre ++ post := by
    rw [hsplit]
    exact TAILQ_REMOVE_split pre post reg hdl
  have hall : spdk_scsi_pr_is_all_registrants_type task.lun = true := by
    unfold spdk_scsi_pr_is_all_registrants_type
    rcases htype with h | h <;> simp [h]
  obtain ⟨other, hmem, hne⟩ := hother
  have hmem2 : other ∈ pre ++ post := by
    rw [hsplit] at hmem
    simp only [List.mem_append, List.mem_cons] at hmem ⊢
    rcases hmem with h | h | h
    · exact Or.inl h
    · exact absurd h hne
    · exact Or.inr h
  obtain ⟨first, rest, hfirst⟩ : ∃ first rest, pre ++ post = first :: rest := by
    cases hl : pre ++ post with
    | nil => rw [hl] at hmem2; exact absurd hmem2 (List.not_mem_nil _)
    | cons a l => exact ⟨a, l, rfl⟩
  have hfa : first.addr ≠ reg.addr := by
    have hfm : first ∈ pre ++ post := by rw [hfirst]; exact List.mem_cons_self _ _
    rw [List.pairwise_append, List.pairwise_cons] at hdl
    rcases List.mem_append.mp hfm with h | h
    · exact hdl.2.2 first h reg (List.mem_cons_self _ _)
    · exact (hdl.2.1.1 first h).symm
  have hres : (spdk_scsi_pr_unregister_registrant H task.lun reg.addr).reservation =
      { task.lun.reservation with holder := some first.addr } := by
    rw [unregister_reservation, hall, hrem, hfirst]
    simp [TAILQ_FIRST]
  simp only []
  rw [hres, unregister_reg_head, hrem]
  refine ⟨trivial, rfl, ⟨pre, post, first, rest, hsplit, rfl, hfirst, rfl, hfa⟩, ?_⟩
  simpa using hfa

/-! ## Replacing the key -/

/-- C8, amended: key replacement is in place. On a LUN whose registrant nodes are
distinct objects, if the requesting nexus is registered (registrant `reg`, key
`reg.rkey`), the feature flags are clear, `sa_rkey` is non-zero and either `rkey` is the
stored key or the action is REGISTER AND IGNORE EXISTING KEY, the call succeeds; the
registry has the same registrants at the same positions, the key of `reg` is now
`sa_rkey` and every other registrant is unchanged; when `sa_rkey` is the stored key the
registry is identical to before; the reservation type and stored holder are unchanged;
the generation counter is the previous one plus one modulo two to the width of the
counter, hence exactly one more unless the counter was at its maximum. -/
theorem replace_key_in_place (H : spdk_scsi_decls) (calloc : Option Nat)
    (task : spdk_scsi_task) (action rkey sa_rkey : Nat) (reg : spdk_scsi_pr_registrant)
    (hd : nodes_distinct task.lun)
    (hreg : spdk_scsi_pr_get_registrant task.lun task.initiator_port.addr
      task.target_port.addr = some reg)
    (hsa : sa_rkey ≠ 0)
    (hkey : rkey = reg.rkey ∨ action = SPDK_SCSI_PR_OUT_REG_AND_IGNORE_KEY) :
    (spdk_scsi_pr_out_register H calloc task action rkey sa_rkey 0 0 0).1 = 0 ∧
    (∃ pre post, task.lun.reg_head = pre ++ reg :: post ∧
      (spdk_scsi_pr_out_register H calloc task action rkey sa_rkey 0 0 0).2.lun.reg_head =
        pre ++ { reg with rkey := sa_rkey } :: post) ∧
    (sa_rkey = reg.rkey →
      (spdk_scsi_pr_out_register H calloc task action rkey sa_rkey 0 0 0).2.lun.reg_head =
        task.lun.reg_head) ∧
    (spdk_scsi_pr_out_register H calloc task action rkey sa_rkey 0 0 0).2.lun.reservation =
      task.lun.reservation ∧
    (spdk_scsi_pr_out_register H calloc task action rkey sa_rkey 0 0 0).2.lun.pr_generation =
      (task.lun.pr_generation + 1) % 2 ^ H.pr_generation_bits ∧
    (task.lun.pr_generation + 1 < 2 ^ H.pr_generation_bits →
      (spdk_scsi_pr_out_register H calloc task action rkey sa_rkey
        0 0 0).2.lun.pr_generation = task.lun.pr_generation + 1) := by
  rw [pr_out_register_eq_replace H calloc task action rkey sa_rkey reg hreg hsa hkey]
  obtain ⟨_, _, pre, post, hsplit, _⟩ := get_registrant_some_split task.lun _ _ reg hreg
  have hdl : (pre ++ reg :: post).Pairwise (fun a b => a.addr ≠ b.addr) := by
    rw [← hsplit]
    exact hd
  have hnew : (spdk_scsi_pr_replace_registrant_key H task.lun reg.addr sa_rkey).reg_head =
      pre ++ { reg with rkey := sa_rkey } :: post := by
    unfold spdk_scsi_pr_replace_registrant_key pr_generation_incr
    simp only []
    rw [hsplit]
    exact replace_key_split pre post reg sa_rkey hdl
  refine ⟨rfl, ⟨pre, post, hsplit, hnew⟩, ?_, rfl, rfl, ?_⟩
  · intro hsame
    simp only []
    rw [hnew, hsplit, hsame]
  · intro hlt
    simp [spdk_scsi_pr_replace_registrant_key, pr_generation_incr, Nat.mod_eq_of_lt hlt]

/-- Witness of C5: N1, first of the two registrants, unregisters with its key. -/
theorem unregister_removes_requester_witness :
    nodes_distinct (sample_lun_two 5 none 0) ∧ nexus_unique (sample_lun_two 5 none 0) ∧
    spdk_scsi_pr_get_registrant (sample_lun_two 5 none 0) 100 200 = some sample_reg_1 ∧
    ((spdk_scsi_pr_out_register sample_decls none (sample_task_1 (sample_lun_two 5 none 0))
        SPDK_SCSI_PR_OUT_REGISTER 0x1234 0 0 0 0).1 = 0 ∧
     (∃ pre post, [sample_reg_1, sample_reg_2] = pre ++ sample_reg_1 :: post ∧
        (spdk_scsi_pr_out_register sample_decls none
          (sample_task_1 (sample_lun_two 5 none 0))
          SPDK_SCSI_PR_OUT_REGISTER 0x1234 0 0 0 0).2.lun.reg_head = pre ++ post) ∧
     spdk_scsi_pr_get_registrant
        (spdk_scsi_pr_out_register sample_decls none
          (sample_task_1 (sample_lun_two 5 none 0))
          SPDK_SCSI_PR_OUT_REGISTER 0x1234 0 0 0 0).2.lun 100 200 = none) :=
  ⟨by decide, by decide, by decide,
    unregister_removes_requester sample_decls none (sample_task_1 (sample_lun_two 5 none 0))
      SPDK_SCSI_PR_OUT_REGISTER 0x1234 sample_reg_1 (by decide) (by decide) (by decide)
      (Or.inl rfl)⟩

/-- Witness of C6: scenario 3 with a second registrant: N1 holds a write-exclusive
reservation and unregisters; the reservation is reset and N2 does not inherit it. -/
theorem unregister_single_holder_resets_witness :
    spdk_scsi_pr_get_registrant (sample_lun_two 5 (some 4096) 1) 100 200 =
      some sample_reg_1 ∧
    spdk_scsi_pr_is_all_registrants_type (sample_lun_two 5 (some 4096) 1) = false ∧
    (sample_lun_two 5 (some 4096) 1).reservation.holder = some sample_reg_1.addr ∧
    sample_call_unregister_holder.1 = 0 ∧
    sample_call_unregister_holder.2.lun.reservation.rtype = 0 ∧
    sample_call_unregister_holder.2.lun.reservation.holder = none :=
  have h := unregister_single_holder_resets sample_decls none
    (sample_task_1 (sample_lun_two 5 (some 4096) 1)) SPDK_SCSI_PR_OUT_REGISTER 0x1234
    sample_reg_1 (by decide) (Or.inl rfl) (by decide)
  ⟨by decide, by decide, by decide, h.1, h.2.1 (by decide)⟩

/-- Witness of C7: scenario 4: the all-registrants reservation with stored holder N1
moves to N2 when N1 unregisters. -/
theorem unregister_all_registrants_reassigns_witness :
    nodes_distinct (sample_lun_two 5 (some 4096) 7) ∧
    spdk_scsi_pr_get_registrant (sample_lun_two 5 (some 4096) 7) 100 200 =
      some sample_reg_1 ∧
    (sample_lun_two 5 (some 4096) 7).reservation.rtype =
      SPDK_SCSI_PR_WRITE_EXCLUSIVE_ALL_REGS ∧
    (sample_lun_two 5 (some 4096) 7).reservation.holder = some sample_reg_1.addr ∧
    (∃ other, other ∈ (sample_lun_two 5 (some 4096) 7).reg_head ∧ other ≠ sample_reg_1) ∧
    (sample_call_unregister_all_regs.1 = 0 ∧
     sample_call_unregister_all_regs.2.lun.reservation.rtype = 7 ∧
     (∃ pre post first rest, [sample_reg_1, sample_reg_2] = pre ++ sample_reg_1 :: post ∧
        sample_call_unregister_all_regs.2.lun.reg_head = pre ++ post ∧
        pre ++ post = first :: rest ∧
        sample_call_unregister_all_regs.2.lun.reservation.holder = some first.addr ∧
        first.addr ≠ sample_reg_1.addr) ∧
     sample_call_unregister_all_regs.2.lun.reservation.holder ≠ some sample_reg_1.addr) :=
  ⟨by decide, by decide, by decide, by decide, ⟨sample_reg_2, by decide, by decide⟩,
    unregister_all_registrants_reassigns sample_decls none
      (sample_task_1 (sample_lun_two 5 (some 4096) 7)) SPDK_SCSI_PR_OUT_REGISTER 0x1234
      sample_reg_1 (by decide) (by decide) (Or.inl rfl) (Or.inl rfl) rfl
      ⟨sample_reg_2, by decide, by decide⟩⟩

/-- Witness of C8: N2, second in the registry, replaces its key 0x5678 by 0xabcd. -/
theorem replace_key_in_place_witness :
    nodes_distinct (sample_lun_two 5 (some 4096) 1) ∧
    spdk_scsi_pr_get_registrant (sample_lun_two 5 (some 4096) 1) 101 200 =
      some sample_reg_2 ∧
    (0xabcd : Nat) ≠ 0 ∧
    (sample_call_replace.1 = 0 ∧
     (∃ pre post, [sample_reg_1, sample_reg_2] = pre ++ sample_reg_2 :: post ∧
        sample_call_replace.2.lun.reg_head =
          pre ++ { sample_reg_2 with rkey := 0xabcd } :: post) ∧
     (0xabcd = sample_reg_2.rkey →
        sample_call_replace.2.lun.reg_head = [sample_reg_1, sample_reg_2]) ∧
     sample_call_replace.2.lun.reservation = { holder := some 4096, rtype := 1 } ∧
     sample_call_replace.2.lun.pr_generation = (5 + 1) % 2 ^ 32 ∧
     (5 + 1 < 2 ^ 32 → sample_call_replace.2.lun.pr_generation = 5 + 1)) :=
  ⟨by decide, by decide, by decide,
    replace_key_in_place sample_decls none
      (sample_task_2 (sample_lun_two 5 (some 4096) 1)) SPDK_SCSI_PR_OUT_REGISTER 0x5678
      0xabcd sample_reg_2 (by decide) (by decide) (by decide) (Or.inl rfl)⟩

/-- C8 as stated fails: with a 32-bit generation counter at 4294967295, the successful
key replacement by the registered nexus N2 leaves the counter at 0, not at one more than
before. -/
theorem replace_key_generation_wraps :
    spdk_scsi_pr_get_registrant (sample_lun_two 4294967295 (some 4096) 1) 101 200 =
      some sample_reg_2 ∧
    sample_call_replace_at_max.1 = 0 ∧
    sample_call_replace_at_max.2.lun.pr_generation = 0 ∧
    ¬ (sample_call_replace_at_max.2.lun.pr_generation =
        (sample_lun_two 4294967295 (some 4096) 1).pr_generation + 1) := by
  decide

/-! ## The generation counter -/

/-- The generation counter after `spdk_scsi_pr_out_register`: incremented, modulo the
width of the counter, exactly when the call succeeds and is not the no-op on an
unregistered nexus with a zero service action key. -/
theorem pr_out_register_generation (H : spdk_scsi_decls) (calloc : Option Nat)
    (task : spdk_scsi_task) (action rkey sa_rkey spec_i_pt all_tg_pt aptpl : Nat) :
    (spdk_scsi_pr_out_register H calloc task action rkey sa_rkey
        spec_i_pt all_tg_pt aptpl).2.lun.pr_generation =
      if (spdk_scsi_pr_out_register H calloc task action rkey sa_rkey
            spec_i_pt all_tg_pt aptpl).1 = 0 ∧
          ¬ (spdk_scsi_pr_get_registrant task.lun task.initiator_port.addr
              task.target_port.addr = none ∧ sa_rkey = 0) then
        (task.lun.pr_generation + 1) % 2 ^ H.pr_generation_bits
      else task.lun.pr_generation := by
  unfold spdk_scsi_pr_out_register spdk_scsi_pr_out_register_error_exit
    spdk_scsi_task_set_status spdk_scsi_pr_register_registrant
  by_cases hf : (spec_i_pt != 0 || all_tg_pt != 0 || aptpl != 0) = true
  · simp [hf, EINVAL]
  · cases hreg : spdk_scsi_pr_get_registrant task.lun task.initiator_port.addr
        task.target_port.addr with
    | none =>
      by_cases hc : (rkey != 0 && action == SPDK_SCSI_PR_OUT_REGISTER) = true <;>
        by_cases hs : sa_rkey = 0 <;> cases calloc <;>
        simp [hf, hc, hs, EINVAL, ENOMEM, pr_generation_incr]
    | some reg =>
      by_cases hc : (rkey != reg.rkey && action == SPDK_SCSI_PR_OUT_REGISTER) = true <;>
        by_cases hs : sa_rkey = 0 <;>
        simp [hf, hc, hs, EINVAL, unregister_pr_generation,
          spdk_scsi_pr_replace_registrant_key, pr_generation_incr]

/-- C10, amended: the generation counter across `spdk_scsi_pr_out`. For every LUN state
and every command: a failed call (including an unknown or unimplemented service action)
leaves the counter unchanged; so does the successful no-op on an unregistered nexus with
a zero service action key; every other successful call (a new registrant, an
unregistration, a key replacement) sets it to the previous value plus one modulo two to
the width of the counter. Hence, unless the counter was at its maximum, it does not
decrease and a successful mutation increases it by exactly one. -/
theorem pr_out_generation_counter (H : spdk_scsi_decls) (calloc : Option Nat)
    (task : spdk_scsi_task) (cdb : List Nat) (param : spdk_scsi_pr_out_param_list)
    (data_len : Nat) :
    ((spdk_scsi_pr_out H calloc task cdb param data_len).1 ≠ 0 →
      (spdk_scsi_pr_out H calloc task cdb param data_len).2.lun.pr_generation =
        task.lun.pr_generation) ∧
    ((spdk_scsi_pr_out H calloc task cdb param data_len).1 = 0 →
      (spdk_scsi_pr_get_registrant task.lun task.initiator_port.addr
          task.target_port.addr = none ∧ from_be64 param.sa_rkey = 0) →
      (spdk_scsi_pr_out H calloc task cdb param data_len).2.lun.pr_generation =
        task.lun.pr_generation) ∧
    ((spdk_scsi_pr_out H calloc task cdb param data_len).1 = 0 →
      ¬ (spdk_scsi_pr_get_registrant task.lun task.initiator_port.addr
          task.target_port.addr = none ∧ from_be64 param.sa_rkey = 0) →
      (spdk_scsi_pr_out H calloc task cdb param data_len).2.lun.pr_generation =
        (task.lun.pr_generation + 1) % 2 ^ H.pr_generation_bits) ∧
    (task.lun.pr_generation + 1 < 2 ^ H.pr_generation_bits →
      task.lun.pr_generation ≤
        (spdk_scsi_pr_out H calloc task cdb param data_len).2.lun.pr_generation ∧
      ((spdk_scsi_pr_out H calloc task cdb param data_len).1 = 0 →
        ¬ (spdk_scsi_pr_get_registrant task.lun task.initiator_port.addr
            task.target_port.addr = none ∧ from_be64 param.sa_rkey = 0) →
        (spdk_scsi_pr_out H calloc task cdb param data_len).2.lun.pr_generation =
          task.lun.pr_generation + 1)) := by
  have key : (spdk_scsi_pr_out H calloc task cdb param data_len).2.lun.pr_generation =
      if (spdk_scsi_pr_out H calloc task cdb param data_len).1 = 0 ∧
          ¬ (spdk_scsi_pr_get_registrant task.lun task.initiator_port.addr
              task.target_port.addr = none ∧ from_be64 param.sa_rkey = 0) then
        (task.lun.pr_generation + 1) % 2 ^ H.pr_generation_bits
      else task.lun.pr_generation := by
    unfold spdk_scsi_pr_out
    simp only []
    by_cases ha : ((cdb.getD 1 0 &&& 0x0f) == SPDK_SCSI_PR_OUT_REGISTER ||
        (cdb.getD 1 0 &&& 0x0f) == SPDK_SCSI_PR_OUT_REG_AND_IGNORE_KEY) = true
    · simp only [if_pos ha]
      exact pr_out_register_generation H calloc task _ _ _ _ _ _
    · simp only [if_neg ha]
      simp [spdk_scsi_task_set_status, EINVAL]
  refine ⟨?_, ?_, ?_, ?_⟩
  · intro h
    rw [key, if_neg (fun hc => h hc.1)]
  · intro _ h
    rw [key, if_neg (fun hc => hc.2 h)]
  · intro h0 h
    rw [key, if_pos ⟨h0, h⟩]
  · intro hlt
    refine ⟨?_, ?_⟩
    · rw [key]
      split_ifs
      · rw [Nat.mod_eq_of_lt hlt]
        exact Nat.le_succ _
      · exact Nat.le_refl _
    · intro h0 h
      rw [key, if_pos ⟨h0, h⟩, Nat.mod_eq_of_lt hlt]

/-- Witness of C10: N1 unregisters through the dispatcher at generation 5, which becomes
6. -/
theorem pr_out_generation_counter_witness :
    sample_call_pr_out.1 = 0 ∧
    ¬ (spdk_scsi_pr_get_registrant (sample_lun_two 5 none 0) 100 200 = none ∧
        from_be64 sample_param_unregister.sa_rkey = 0) ∧
    5 + 1 < 2 ^ 32 ∧
    sample_call_pr_out.2.lun.pr_generation = 5 + 1 :=
  ⟨by decide, by decide, by decide,
    ((pr_out_generation_counter sample_decls none (sample_task_1 (sample_lun_two 5 none 0))
      [0x5f, 0x00] sample_param_unregister 24).2.2.2 (by decide)).2 (by decide)
      (by decide)⟩

/-- C10 as stated fails: with a 32-bit generation counter at 4294967295, the successful
unregistration of N1 through `spdk_scsi_pr_out` leaves the counter at 0: the counter has
decreased and is not one more than before. -/
theorem pr_out_generation_wraps :
    sample_call_pr_out_at_max.1 = 0 ∧
    sample_call_pr_out_at_max.2.lun.reg_head = [sample_reg_2] ∧
    sample_call_pr_out_at_max.2.lun.pr_generation = 0 ∧
    sample_call_pr_out_at_max.2.lun.pr_generation <
      (sample_lun_two 4294967295 none 0).pr_generation ∧
    ¬ (sample_call_pr_out_at_max.2.lun.pr_generation =
        (sample_lun_two 4294967295 none 0).pr_generation + 1) := by
  decide

/-! ## REGISTER AND IGNORE EXISTING KEY -/

/-- With the feature flags clear, REGISTER AND IGNORE EXISTING KEY goes straight to the
decision on `sa_rkey`: neither key check can fail. -/
theorem pr_out_register_ignore_key_eq (H : spdk_scsi_decls) (calloc : Option Nat)
    (task : spdk_scsi_task) (rkey sa_rkey : Nat) :
    spdk_scsi_pr_out_register H calloc task SPDK_SCSI_PR_OUT_REG_AND_IGNORE_KEY rkey sa_rkey
        0 0 0 =
      match spdk_scsi_pr_get_registrant task.lun task.initiator_port.addr
          task.target_port.addr with
      | none =>
        if sa_rkey = 0 then (0, task)
        else ((spdk_scsi_pr_register_registrant H calloc task.lun task.initiator_port
                task.target_port sa_rkey).1,
              { task with lun := (spdk_scsi_pr_register_registrant H calloc task.lun
                task.initiator_port task.target_port sa_rkey).2 })
      | some reg =>
        if sa_rkey = 0 then
          (0, { task with lun := spdk_scsi_pr_unregister_registrant H task.lun reg.addr })
        else
          (0, { task with lun :=
                  spdk_scsi_pr_replace_registrant_key H task.lun reg.addr sa_rkey }) := by
  unfold spdk_scsi_pr_out_register
  cases spdk_scsi_pr_get_registrant task.lun task.initiator_port.addr
      task.target_port.addr <;>
    simp [SPDK_SCSI_PR_OUT_REG_AND_IGNORE_KEY, SPDK_SCSI_PR_OUT_REGISTER]

/-- C11: REGISTER AND IGNORE EXISTING KEY skips every key check. For every LUN state,
requesting nexus (registered or not), `sa_rkey` and allocation outcome, with the feature
flags clear, two calls that differ only in `rkey` return the same result and the same
task (registry, reservation, generation counter and reports); the call reports nothing,
in particular never RESERVATION CONFLICT. -/
theorem ignore_key_outcome_independent_of_rkey (H : spdk_scsi_decls)
    (calloc : Option Nat) (task : spdk_scsi_task) (sa_rkey rkey1 rkey2 : Nat) :
    spdk_scsi_pr_out_register H calloc task SPDK_SCSI_PR_OUT_REG_AND_IGNORE_KEY rkey1
        sa_rkey 0 0 0 =
      spdk_scsi_pr_out_register H calloc task SPDK_SCSI_PR_OUT_REG_AND_IGNORE_KEY rkey2
        sa_rkey 0 0 0 ∧
    (spdk_scsi_pr_out_register H calloc task SPDK_SCSI_PR_OUT_REG_AND_IGNORE_KEY rkey1
        sa_rkey 0 0 0).2.status_reports = task.status_reports ∧
    ∀ sk asc ascq : Nat,
      (spdk_scsi_pr_out_register H calloc task SPDK_SCSI_PR_OUT_REG_AND_IGNORE_KEY rkey1
        sa_rkey 0 0 0).2.status_reports ≠
      task.status_reports ++ [{ sc := SPDK_SCSI_STATUS_RESERVATION_CONFLICT, sk := sk,
                                asc := asc, ascq := ascq }] := by
  have hrep : (spdk_scsi_pr_out_register H calloc task SPDK_SCSI_PR_OUT_REG_AND_IGNORE_KEY
      rkey1 sa_rkey 0 0 0).2.status_reports = task.status_reports := by
    rw [pr_out_register_ignore_key_eq]
    cases spdk_scsi_pr_get_registrant task.lun task.initiator_port.addr
        task.target_port.addr <;> simp only [] <;> split_ifs <;> rfl
  refine ⟨?_, hrep, ?_⟩
  · rw [pr_out_register_ignore_key_eq, pr_out_register_ignore_key_eq]
  · intro sk asc ascq
    rw [hrep]
    simp

/-! ## The dispatcher -/

/-- The mask `& 0x0f` keeps the remainder modulo 16: the low four bits. -/
theorem and_0x0f_eq_mod (x : Nat) : x &&& 0x0f = x % 16 :=
  Nat.and_pow_two_sub_one_eq_mod x 4

/-- C12: unknown or unimplemented service actions are rejected untouched. If the low four
bits of CDB byte 1 are neither 0x00 (REGISTER) nor 0x06 (REGISTER AND IGNORE EXISTING
KEY), then for every LUN state and parameter list `spdk_scsi_pr_out` returns the error
`-EINVAL`, reports CHECK CONDITION / ILLEGAL REQUEST / INVALID FIELD IN CDB / CAUSE NOT
REPORTABLE and leaves the LUN unchanged; RESERVE, RELEASE, CLEAR, PREEMPT, PREEMPT AND
ABORT and REGISTER AND MOVE are such codes; and two CDBs whose bytes 1 agree on the low
four bits give the same outcome, whatever the upper four bits. -/
theorem pr_out_rejects_unknown_action (H : spdk_scsi_decls) (calloc : Option Nat)
    (task : spdk_scsi_task) (cdb : List Nat) (param : spdk_scsi_pr_out_param_list)
    (data_len : Nat) :
    (cdb.getD 1 0 % 16 ≠ SPDK_SCSI_PR_OUT_REGISTER →
      cdb.getD 1 0 % 16 ≠ SPDK_SCSI_PR_OUT_REG_AND_IGNORE_KEY →
      (spdk_scsi_pr_out H calloc task cdb param data_len).1 = -EINVAL ∧
      (spdk_scsi_pr_out H calloc task cdb param data_len).1 ≠ 0 ∧
      (spdk_scsi_pr_out H calloc task cdb param data_len).2.status_reports =
        task.status_reports ++ [{ sc := SPDK_SCSI_STATUS_CHECK_CONDITION,
                                  sk := SPDK_SCSI_SENSE_ILLEGAL_REQUEST,
                                  asc := SPDK_SCSI_ASC_INVALID_FIELD_IN_CDB,
                                  ascq := SPDK_SCSI_ASCQ_CAUSE_NOT_REPORTABLE }] ∧
      (spdk_scsi_pr_out H calloc task cdb param data_len).2.lun = task.lun) ∧
    (∀ a ∈ [SPDK_SCSI_PR_OUT_RESERVE, SPDK_SCSI_PR_OUT_RELEASE, SPDK_SCSI_PR_OUT_CLEAR,
        SPDK_SCSI_PR_OUT_PREEMPT, SPDK_SCSI_PR_OUT_PREEMPT_AND_ABORT,
        SPDK_SCSI_PR_OUT_REG_AND_MOVE],
      a % 16 ≠ SPDK_SCSI_PR_OUT_REGISTER ∧ a % 16 ≠ SPDK_SCSI_PR_OUT_REG_AND_IGNORE_KEY) ∧
    (∀ cdb2 : List Nat, cdb2.getD 1 0 % 16 = cdb.getD 1 0 % 16 →
      spdk_scsi_pr_out H calloc task cdb2 param data_len =
        spdk_scsi_pr_out H calloc task cdb param data_len) := by
  refine ⟨?_, by decide, ?_⟩
  · intro h0 h6
    have hsw : ((cdb.getD 1 0 &&& 0x0f) == SPDK_SCSI_PR_OUT_REGISTER ||
        (cdb.getD 1 0 &&& 0x0f) == SPDK_SCSI_PR_OUT_REG_AND_IGNORE_KEY) = false := by
      rw [and_0x0f_eq_mod, Bool.or_eq_false_iff]
      exact ⟨beq_false_of_ne h0, beq_false_of_ne h6⟩
    unfold spdk_scsi_pr_out
    simp only [hsw]
    refine ⟨rfl, ?_, rfl, rfl⟩
    simp [EINVAL]
  · intro cdb2 h
    unfold spdk_scsi_pr_out
    simp only [and_0x0f_eq_mod, h]

/-- Witness of C12: RESERVE (0x01) with all upper bits of CDB byte 1 set, from the
registered nexus N1. -/
theorem pr_out_rejects_unknown_action_witness :
    ([0x5f, 0xf1].getD 1 0 % 16 ≠ SPDK_SCSI_PR_OUT_REGISTER ∧
      [0x5f, 0xf1].getD 1 0 % 16 ≠ SPDK_SCSI_PR_OUT_REG_AND_IGNORE_KEY) ∧
    ((spdk_scsi_pr_out sample_decls none (sample_task_1 (sample_lun_two 5 (some 4096) 1))
        [0x5f, 0xf1] sample_param_unregister 24).1 = -EINVAL ∧
     (spdk_scsi_pr_out sample_decls none (sample_task_1 (sample_lun_two 5 (some 4096) 1))
        [0x5f, 0xf1] sample_param_unregister 24).1 ≠ 0 ∧
     (spdk_scsi_pr_out sample_decls none (sample_task_1 (sample_lun_two 5 (some 4096) 1))
        [0x5f, 0xf1] sample_param_unregister 24).2.status_reports =
       [{ sc := 0x02, sk := 0x05, asc := 0x24, ascq := 0x00 }] ∧
     (spdk_scsi_pr_out sample_decls none (sample_task_1 (sample_lun_two 5 (some 4096) 1))
        [0x5f, 0xf1] sample_param_unregister 24).2.lun = sample_lun_two 5 (some 4096) 1) :=
  ⟨⟨by decide, by decide⟩,
    (pr_out_rejects_unknown_action sample_decls none
      (sample_task_1 (sample_lun_two 5 (some 4096) 1)) [0x5f, 0xf1]
      sample_param_unregister 24).1 (by decide) (by decide)⟩

/-! ## What the task is told -/

/-- C13, the failing input: N1 registers key 0x1234 on an empty LUN and `calloc` returns
NULL. The call returns the error `-ENOMEM` and nothing has been reported on the task: no
status, sense key or additional sense code was set. -/
theorem register_alloc_failure_reports_nothing :
    spdk_scsi_pr_get_registrant (sample_lun_empty 3) 100 200 = none ∧
    sample_call_register_no_memory.1 = -ENOMEM ∧
    sample_call_register_no_memory.1 ≠ 0 ∧
    (sample_task_1 (sample_lun_empty 3)).status_reports = [] ∧
    sample_call_register_no_memory.2.status_reports = [] := by
  decide

/-- A successful `spdk_scsi_pr_out_register` makes no report on the task. -/
theorem pr_out_register_success_no_report (H : spdk_scsi_decls) (calloc : Option Nat)
    (task : spdk_scsi_task) (action rkey sa_rkey spec_i_pt all_tg_pt aptpl : Nat)
    (hok : (spdk_scsi_pr_out_register H calloc task action rkey sa_rkey
      spec_i_pt all_tg_pt aptpl).1 = 0) :
    (spdk_scsi_pr_out_register H calloc task action rkey sa_rkey
      spec_i_pt all_tg_pt aptpl).2.status_reports = task.status_reports := by
  revert hok
  unfold spdk_scsi_pr_out_register spdk_scsi_pr_out_register_error_exit
    spdk_scsi_task_set_status spdk_scsi_pr_register_registrant
  cases spdk_scsi_pr_get_registrant task.lun task.initiator_port.addr
      task.target_port.addr <;> cases calloc <;> simp only [] <;> split_ifs <;>
    simp [EINVAL]

/-- C14, amended: success is signalled by the return value only. For every LUN state and
every call to `spdk_scsi_pr_out` that succeeds (new registration, unregistration, key
replacement or the zero-key no-op), the dispatcher returns 0 and makes no report through
the status-setting interface: the reports on the task are exactly what they were before
the call. -/
theorem pr_out_success_reports_nothing (H : spdk_scsi_decls) (calloc : Option Nat)
    (task : spdk_scsi_task) (cdb : List Nat) (param : spdk_scsi_pr_out_param_list)
    (data_len : Nat)
    (hok : (spdk_scsi_pr_out H calloc task cdb param data_len).1 = 0) :
    (spdk_scsi_pr_out H calloc task cdb param data_len).2.status_reports =
      task.status_reports ∧
    (∀ rep, rep ∈ (spdk_scsi_pr_out H calloc task cdb param data_len).2.status_reports →
      rep ∈ task.status_reports) := by
  have hrep : (spdk_scsi_pr_out H calloc task cdb param data_len).2.status_reports =
      task.status_reports := by
    revert hok
    unfold spdk_scsi_pr_out
    simp only []
    by_cases ha : ((cdb.getD 1 0 &&& 0x0f) == SPDK_SCSI_PR_OUT_REGISTER ||
        (cdb.getD 1 0 &&& 0x0f) == SPDK_SCSI_PR_OUT_REG_AND_IGNORE_KEY) = true
    · simp only [if_pos ha]
      exact pr_out_register_success_no_report H calloc task _ _ _ _ _ _
    · simp only [if_neg ha]
      simp [EINVAL]
  refine ⟨hrep, ?_⟩
  intro rep hmem
  rw [hrep] at hmem
  exact hmem

/-- Witness of C14: the zero-key no-op of scenario 6 through the dispatcher. -/
theorem pr_out_success_reports_nothing_witness :
    sample_call_pr_out_noop.1 = 0 ∧
    (sample_call_pr_out_noop.2.status_reports = [] ∧
     (∀ rep, rep ∈ sample_call_pr_out_noop.2.status_reports →
        rep ∈ (sample_task_1 (sample_lun_empty 3)).status_reports)) :=
  ⟨by decide, pr_out_success_reports_nothing sample_decls none
    (sample_task_1 (sample_lun_empty 3)) [0x5f, 0x00]
    { rkey := [0, 0, 0, 0, 0, 0, 0, 0], sa_rkey := [0, 0, 0, 0, 0, 0, 0, 0],
      aptpl := 0, spec_i_pt := 0, all_tg_pt := 0 } 24 (by decide)⟩

/-- C14 as stated fails: the zero-key no-op of scenario 6 through the dispatcher succeeds
on a task on which nothing was reported, and afterwards still nothing is reported on it:
no status GOOD has been set. -/
theorem pr_out_success_sets_no_good_status :
    (sample_task_1 (sample_lun_empty 3)).status_reports = [] ∧
    sample_call_pr_out_noop.1 = 0 ∧
    sample_call_pr_out_noop.2.status_reports = [] ∧
    ¬ (∃ rep, rep ∈ sample_call_pr_out_noop.2.status_reports ∧
        rep.sc = SPDK_SCSI_STATUS_GOOD) := by
  refine ⟨by decide, by decide, by decide, ?_⟩
  rintro ⟨rep, hmem, _⟩
  have h : sample_call_pr_out_noop.2.status_reports = [] := by decide
  rw [h] at hmem
  exact absurd hmem (List.not_mem_nil _)

/-! ## The state after a command, by cases -/

/-- The LUN after a successful allocation and registration. -/
theorem register_some_spec (H : spdk_scsi_decls) (p : Nat) (lun : spdk_scsi_lun)
    (initiator_port target_port : spdk_scsi_port) (sa_rkey : Nat) :
    ∃ reg, (spdk_scsi_pr_register_registrant H (some p) lun initiator_port target_port
        sa_rkey).2.reg_head = lun.reg_head ++ [reg] ∧
      reg.addr = p ∧ reg.initiator_port = initiator_port.addr ∧
      reg.target_port = target_port.addr ∧ reg.rkey = sa_rkey ∧
      (spdk_scsi_pr_register_registrant H (some p) lun initiator_port target_port
        sa_rkey).2.reservation = lun.reservation ∧
      (spdk_scsi_pr_register_registrant H (some p) lun initiator_port target_port
        sa_rkey).2.pr_generation = (lun.pr_generation + 1) % 2 ^ H.pr_generation_bits :=
  ⟨_, rfl, rfl, rfl, rfl, rfl, rfl, rfl⟩

/-- The LUN after `spdk_scsi_pr_out_register` is the previous one, or the result of a
registration after a failed lookup, or the result of unregistering or of replacing the
key of the registrant found. -/
theorem pr_out_register_lun_cases (H : spdk_scsi_decls) (calloc : Option Nat)
    (task : spdk_scsi_task) (action rkey sa_rkey spec_i_pt all_tg_pt aptpl : Nat) :
    (spdk_scsi_pr_out_register H calloc task action rkey sa_rkey
        spec_i_pt all_tg_pt aptpl).2.lun = task.lun ∨
    (∃ p, calloc = some p ∧
      spdk_scsi_pr_get_registrant task.lun task.initiator_port.addr
        task.target_port.addr = none ∧
      (spdk_scsi_pr_out_register H calloc task action rkey sa_rkey
        spec_i_pt all_tg_pt aptpl).2.lun =
        (spdk_scsi_pr_register_registrant H (some p) task.lun task.initiator_port
          task.target_port sa_rkey).2) ∨
    (∃ reg, spdk_scsi_pr_get_registrant task.lun task.initiator_port.addr
        task.target_port.addr = some reg ∧
      (spdk_scsi_pr_out_register H calloc task action rkey sa_rkey
        spec_i_pt all_tg_pt aptpl).2.lun =
        spdk_scsi_pr_unregister_registrant H task.lun reg.addr) ∨
    (∃ reg, spdk_scsi_pr_get_registrant task.lun task.initiator_port.addr
        task.target_port.addr = some reg ∧
      (spdk_scsi_pr_out_register H calloc task action rkey sa_rkey
        spec_i_pt all_tg_pt aptpl).2.lun =
        spdk_scsi_pr_replace_registrant_key H task.lun reg.addr sa_rkey) := by
  unfold spdk_scsi_pr_out_register spdk_scsi_pr_out_register_error_exit
    spdk_scsi_task_set_status
  by_cases hf : (spec_i_pt != 0 || all_tg_pt != 0 || aptpl != 0) = true
  · left
    simp [hf]
  · cases hreg : spdk_scsi_pr_get_registrant task.lun task.initiator_port.addr
        task.target_port.addr with
    | none =>
      by_cases hc : (rkey != 0 && action == SPDK_SCSI_PR_OUT_REGISTER) = true
      · left
        simp [hf, hc]
      · by_cases hs : sa_rkey = 0
        · left
          simp [hf, hc, hs]
        · cases calloc with
          | none =>
            left
            simp [hf, hc, hs, spdk_scsi_pr_register_registrant]
          | some p =>
            right
            left
            refine ⟨p, rfl, rfl, ?_⟩
            simp [hf, hc, hs]
    | some reg =>
      by_cases hc : (rkey != reg.rkey && action == SPDK_SCSI_PR_OUT_REGISTER) = true
      · left
        simp [hf, hc]
      · by_cases hs : sa_rkey = 0
        · right
          right
          left
          refine ⟨reg, rfl, ?_⟩
          simp [hf, hc, hs]
        · right
          right
          right
          refine ⟨reg, rfl, ?_⟩
          simp [hf, hc, hs]

/-- The LUN after `spdk_scsi_pr_out`, by the same cases. -/
theorem pr_out_lun_cases (H : spdk_scsi_decls) (calloc : Option Nat)
    (task : spdk_scsi_task) (cdb : List Nat) (param : spdk_scsi_pr_out_param_list)
    (data_len : Nat) :
    (spdk_scsi_pr_out H calloc task cdb param data_len).2.lun = task.lun ∨
    (∃ p, calloc = some p ∧
      spdk_scsi_pr_get_registrant task.lun task.initiator_port.addr
        task.target_port.addr = none ∧
      (spdk_scsi_pr_out H calloc task cdb param data_len).2.lun =
        (spdk_scsi_pr_register_registrant H (some p) task.lun task.initiator_port
          task.target_port (from_be64 param.sa_rkey)).2) ∨
    (∃ reg, spdk_scsi_pr_get_registrant task.lun task.initiator_port.addr
        task.target_port.addr = some reg ∧
      (spdk_scsi_pr_out H calloc task cdb param data_len).2.lun =
        spdk_scsi_pr_unregister_registrant H task.lun reg.addr) ∨
    (∃ reg, spdk_scsi_pr_get_registrant task.lun task.initiator_port.addr
        task.target_port.addr = some reg ∧
      (spdk_scsi_pr_out H calloc task cdb param data_len).2.lun =
        spdk_scsi_pr_replace_registrant_key H task.lun reg.addr
          (from_be64 param.sa_rkey)) := by
  unfold spdk_scsi_pr_out
  simp only []
  by_cases ha : ((cdb.getD 1 0 &&& 0x0f) == SPDK_SCSI_PR_OUT_REGISTER ||
      (cdb.getD 1 0 &&& 0x0f) == SPDK_SCSI_PR_OUT_REG_AND_IGNORE_KEY) = true
  · simp only [if_pos ha]
    exact pr_out_register_lun_cases H calloc task _ _ _ _ _ _
  · simp only [if_neg ha]
    left
    rfl

/-- Replacing a key maps the queue node by node and leaves the reservation alone. -/
theorem replace_reg_head (H : spdk_scsi_decls) (lun : spdk_scsi_lun) (reg sa_rkey : Nat) :
    (spdk_scsi_pr_replace_registrant_key H lun reg sa_rkey).reg_head =
      lun.reg_head.map (fun r => if r.addr == reg then { r with rkey := sa_rkey } else r) ∧
    (spdk_scsi_pr_replace_registrant_key H lun reg sa_rkey).reservation =
      lun.reservation :=
  ⟨rfl, rfl⟩

/-! ## Preservation of the well-formedness conditions -/

/-- Distinctness of the nodes is kept by every command, provided the allocator hands out
storage that is not in use. -/
theorem pr_out_nodes_distinct (H : spdk_scsi_decls) (calloc : Option Nat)
    (task : spdk_scsi_task) (cdb : List Nat) (param : spdk_scsi_pr_out_param_list)
    (data_len : Nat) (hd : nodes_distinct task.lun) (hfresh : calloc_fresh calloc task.lun) :
    nodes_distinct (spdk_scsi_pr_out H calloc task cdb param data_len).2.lun := by
  unfold nodes_distinct at hd ⊢
  rcases pr_out_lun_cases H calloc task cdb param data_len with
    h | ⟨p, hp, _, h⟩ | ⟨reg, _, h⟩ | ⟨reg, _, h⟩
  · rw [h]
    exact hd
  · rw [h]
    obtain ⟨reg, hhead, haddr, _⟩ := register_some_spec H p task.lun task.initiator_port
      task.target_port (from_be64 param.sa_rkey)
    rw [hhead, List.pairwise_append]
    refine ⟨hd, List.pairwise_singleton _ _, ?_⟩
    intro a ha b hb
    rw [List.mem_singleton] at hb
    rw [hb, haddr]
    intro hab
    exact hfresh a ha (by rw [hp, hab])
  · rw [h, unregister_reg_head]
    exact List.Pairwise.filter _ hd
  · rw [h, (replace_reg_head H task.lun reg.addr _).1]
    apply List.Pairwise.map _ _ hd
    intro a b hab
    by_cases h1 : a.addr = reg.addr <;> by_cases h2 : b.addr = reg.addr <;>
      simp [h1, h2] <;> simp_all

/-- Uniqueness of the nexus is kept by every command. -/
theorem pr_out_nexus_unique (H : spdk_scsi_decls) (calloc : Option Nat)
    (task : spdk_scsi_task) (cdb : List Nat) (param : spdk_scsi_pr_out_param_list)
    (data_len : Nat) (hu : nexus_unique task.lun) :
    nexus_unique (spdk_scsi_pr_out H calloc task cdb param data_len).2.lun := by
  unfold nexus_unique at hu ⊢
  rcases pr_out_lun_cases H calloc task cdb param data_len with
    h | ⟨p, _, hnone, h⟩ | ⟨reg, _, h⟩ | ⟨reg, _, h⟩
  · rw [h]
    exact hu
  · rw [h]
    obtain ⟨reg, hhead, _, hip, htp, _⟩ := register_some_spec H p task.lun
      task.initiator_port task.target_port (from_be64 param.sa_rkey)
    rw [hhead, List.pairwise_append]
    refine ⟨hu, List.pairwise_singleton _ _, ?_⟩
    intro a ha b hb
    rw [List.mem_singleton] at hb
    rw [hb, hip, htp]
    intro hab
    unfold spdk_scsi_pr_get_registrant at hnone
    rw [List.find?_eq_none] at hnone
    apply hnone a ha
    simp [hab.1, hab.2]
  · rw [h, unregister_reg_head]
    exact List.Pairwise.filter _ hu
  · rw [h, (replace_reg_head H task.lun reg.addr _).1]
    apply List.Pairwise.map _ _ hu
    intro a b hab
    by_cases h1 : a.addr = reg.addr <;> by_cases h2 : b.addr = reg.addr <;>
      simp [h1, h2] <;> exact fun hi ht => hab ⟨hi, ht⟩

/-- After unregistering, the stored holder is NULL or a node of the remaining queue,
provided it was NULL or a node of the queue before. -/
theorem unregister_holder_in_registry (H : spdk_scsi_decls) (lun : spdk_scsi_lun)
    (reg : Nat) (hh : holder_in_registry lun) :
    holder_in_registry (spdk_scsi_pr_unregister_registrant H lun reg) := by
  unfold holder_in_registry at hh ⊢
  rw [unregister_reservation, unregister_reg_head]
  by_cases hall : spdk_scsi_pr_is_all_registrants_type lun = true
  · rw [if_pos hall]
    cases hrem : TAILQ_REMOVE lun.reg_head reg with
    | nil => left; simp
    | cons first rest =>
      right
      exact ⟨first, List.mem_cons_self _ _, by simp [TAILQ_FIRST]⟩
  · rw [if_neg hall]
    by_cases hreg : lun.reservation.holder = some reg
    · left
      simp [hreg]
    · rw [if_neg hreg]
      rcases hh with hnone | ⟨r, hr, hhold⟩
      · exact Or.inl hnone
      · right
        refine ⟨r, ?_, hhold⟩
        unfold TAILQ_REMOVE
        rw [List.mem_filter]
        refine ⟨hr, ?_⟩
        have : r.addr ≠ reg := by
          intro heq
          exact hreg (by rw [hhold, heq])
        simpa using this

/-- The stored holder stays NULL or a node of the queue across every command. -/
theorem pr_out_holder_in_registry (H : spdk_scsi_decls) (calloc : Option Nat)
    (task : spdk_scsi_task) (cdb : List Nat) (param : spdk_scsi_pr_out_param_list)
    (data_len : Nat) (hh : holder_in_registry task.lun) :
    holder_in_registry (spdk_scsi_pr_out H calloc task cdb param data_len).2.lun := by
  rcases pr_out_lun_cases H calloc task cdb param data_len with
    h | ⟨p, _, _, h⟩ | ⟨reg, _, h⟩ | ⟨reg, _, h⟩
  · rw [h]
    exact hh
  · rw [h]
    obtain ⟨reg, hhead, _, _, _, _, hres, _⟩ := register_some_spec H p task.lun
      task.initiator_port task.target_port (from_be64 param.sa_rkey)
    unfold holder_in_registry at hh ⊢
    rw [hhead, hres]
    rcases hh with hnone | ⟨r, hr, hhold⟩
    · exact Or.inl hnone
    · exact Or.inr ⟨r, List.mem_append_left _ hr, hhold⟩
  · rw [h]
    exact unregister_holder_in_registry H task.lun reg.addr hh
  · rw [h]
    unfold holder_in_registry at hh ⊢
    rw [(replace_reg_head H task.lun reg.addr _).1, (replace_reg_head H task.lun reg.addr _).2]
    rcases hh with hnone | ⟨r, hr, hhold⟩
    · exact Or.inl hnone
    · right
      refine ⟨_, List.mem_map_of_mem _ hr, ?_⟩
      rw [hhold]
      split_ifs <;> rfl

/-! ## Invariants across `spdk_scsi_pr_out` -/

/-- In a queue of distinct nodes at most one node is the target of a given pointer. -/
theorem holder_count_le_one (l : List spdk_scsi_pr_registrant) (h : Option Nat)
    (hd : l.Pairwise (fun a b => a.addr ≠ b.addr)) :
    (l.filter (fun r => h == some r.addr)).length ≤ 1 := by
  induction l with
  | nil => simp
  | cons a l ih =>
    rw [List.pairwise_cons] at hd
    rw [List.filter_cons]
    by_cases ha : (h == some a.addr) = true
    · rw [if_pos ha]
      have hrest : l.filter (fun r => h == some r.addr) = [] := by
        rw [List.filter_eq_nil_iff]
        intro b hb hbe
        have h1 : h = some a.addr := by simpa using ha
        have h2 : h = some b.addr := by simpa using hbe
        rw [h1] at h2
        exact hd.1 b hb (Option.some.inj h2)
      rw [hrest]
      simp
    · rw [if_neg ha]
      exact ih hd.2

/-- The holder test in words: all-registrants type, or the stored holder is the node. -/
theorem registrant_is_holder_iff (lun : spdk_scsi_lun) (reg : Nat) :
    spdk_scsi_pr_registrant_is_holder lun reg = true ↔
      (lun.reservation.rtype = SPDK_SCSI_PR_WRITE_EXCLUSIVE_ALL_REGS ∨
       lun.reservation.rtype = SPDK_SCSI_PR_EXCLUSIVE_ACCESS_ALL_REGS ∨
       lun.reservation.holder = some reg) := by
  unfold spdk_scsi_pr_registrant_is_holder spdk_scsi_pr_is_all_registrants_type
  by_cases h7 : lun.reservation.rtype = SPDK_SCSI_PR_WRITE_EXCLUSIVE_ALL_REGS <;>
    by_cases h8 : lun.reservation.rtype = SPDK_SCSI_PR_EXCLUSIVE_ACCESS_ALL_REGS <;>
    simp [h7, h8]

/-- C15: holder invariant. On a LUN in which no two registrants share an I_T nexus (the
registrant nodes being distinct objects and the allocator handing out unused storage),
after every call to `spdk_scsi_pr_out`: if the reservation type is not an all-registrants
type, at most one registrant of the registry satisfies
`spdk_scsi_pr_registrant_is_holder`; if it is an all-registrants type, every registrant
of the registry satisfies it, whatever the stored holder. In every LUN state the test is
true exactly when the type is one of the two all-registrants types or the stored holder
is the registrant. -/
theorem pr_out_holder_invariant (H : spdk_scsi_decls) (calloc : Option Nat)
    (task : spdk_scsi_task) (cdb : List Nat) (param : spdk_scsi_pr_out_param_list)
    (data_len : Nat) (hu : nexus_unique task.lun) (hd : nodes_distinct task.lun)
    (hfresh : calloc_fresh calloc task.lun) :
    (spdk_scsi_pr_is_all_registrants_type
        (spdk_scsi_pr_out H calloc task cdb param data_len).2.lun = false →
      ((spdk_scsi_pr_out H calloc task cdb param data_len).2.lun.reg_head.filter
        (fun r => spdk_scsi_pr_registrant_is_holder
          (spdk_scsi_pr_out H calloc task cdb param data_len).2.lun r.addr)).length ≤ 1) ∧
    (spdk_scsi_pr_is_all_registrants_type
        (spdk_scsi_pr_out H calloc task cdb param data_len).2.lun = true →
      ∀ r ∈ (spdk_scsi_pr_out H calloc task cdb param data_len).2.lun.reg_head,
        spdk_scsi_pr_registrant_is_holder
          (spdk_scsi_pr_out H calloc task cdb param data_len).2.lun r.addr = true) ∧
    (∀ (lun : spdk_scsi_lun) (reg : Nat),
      spdk_scsi_pr_registrant_is_holder lun reg = true ↔
        (lun.reservation.rtype = SPDK_SCSI_PR_WRITE_EXCLUSIVE_ALL_REGS ∨
         lun.reservation.rtype = SPDK_SCSI_PR_EXCLUSIVE_ACCESS_ALL_REGS ∨
         lun.reservation.holder = some reg)) := by
  have hd2 := pr_out_nodes_distinct H calloc task cdb param data_len hd hfresh
  refine ⟨?_, ?_, registrant_is_holder_iff⟩
  · intro hall
    unfold spdk_scsi_pr_registrant_is_holder
    simp only [hall]
    exact holder_count_le_one _ _ hd2
  · intro hall r _
    unfold spdk_scsi_pr_registrant_is_holder
    simp [hall]

/-- Witness of C15: N1, holder of a write-exclusive reservation, replaces its key while
N2 is registered; afterwards one registrant passes the holder test. -/
theorem pr_out_holder_invariant_witness :
    nexus_unique (sample_lun_two 5 (some 4096) 1) ∧
    nodes_distinct (sample_lun_two 5 (some 4096) 1) ∧
    calloc_fresh none (sample_lun_two 5 (some 4096) 1) ∧
    spdk_scsi_pr_is_all_registrants_type
      (spdk_scsi_pr_out sample_decls none (sample_task_1 (sample_lun_two 5 (some 4096) 1))
        [0x5f, 0x00] sample_param_replace 24).2.lun = false ∧
    ((spdk_scsi_pr_out sample_decls none (sample_task_1 (sample_lun_two 5 (some 4096) 1))
        [0x5f, 0x00] sample_param_replace 24).2.lun.reg_head.filter
      (fun r => spdk_scsi_pr_registrant_is_holder
        (spdk_scsi_pr_out sample_decls none
          (sample_task_1 (sample_lun_two 5 (some 4096) 1))
          [0x5f, 0x00] sample_param_replace 24).2.lun r.addr)).length ≤ 1 :=
  ⟨by decide, by decide, by decide, by decide,
    (pr_out_holder_invariant sample_decls none
      (sample_task_1 (sample_lun_two 5 (some 4096) 1)) [0x5f, 0x00] sample_param_replace 24
      (by decide) (by decide) (by decide)).1 (by decide)⟩

/-- A zeroed LUN has an unset type and no holder. -/
theorem zeroed_lun_unset_type_no_holder (gen : Nat) :
    unset_type_no_holder (sample_lun_empty gen) := by
  intro _
  rfl

/-- Every command keeps the condition that an unset type carries no stored holder. -/
theorem pr_out_unset_type_no_holder (H : spdk_scsi_decls) (calloc : Option Nat)
    (task : spdk_scsi_task) (cdb : List Nat) (param : spdk_scsi_pr_out_param_list)
    (data_len : Nat) (hwf : unset_type_no_holder task.lun) :
    unset_type_no_holder (spdk_scsi_pr_out H calloc task cdb param data_len).2.lun := by
  unfold unset_type_no_holder at hwf ⊢
  rcases pr_out_lun_cases H calloc task cdb param data_len with
    h | ⟨p, _, _, h⟩ | ⟨reg, _, h⟩ | ⟨reg, _, h⟩
  · rw [h]
    exact hwf
  · rw [h]
    obtain ⟨reg, _, _, _, _, _, hres, _⟩ := register_some_spec H p task.lun
      task.initiator_port task.target_port (from_be64 param.sa_rkey)
    rw [hres]
    exact hwf
  · rw [h, unregister_reservation]
    by_cases hall : spdk_scsi_pr_is_all_registrants_type task.lun = true
    · rw [if_pos hall]
      by_cases hemp : TAILQ_REMOVE task.lun.reg_head reg.addr = []
      · rw [if_pos hemp]
        intro _
        rfl
      · rw [if_neg hemp]
        intro h0
        exfalso
        have h0' : task.lun.reservation.rtype = 0 := h0
        unfold spdk_scsi_pr_is_all_registrants_type at hall
        rw [h0'] at hall
        simp [SPDK_SCSI_PR_WRITE_EXCLUSIVE_ALL_REGS,
          SPDK_SCSI_PR_EXCLUSIVE_ACCESS_ALL_REGS] at hall
    · rw [if_neg hall]
      by_cases hreg : task.lun.reservation.holder = some reg.addr
      · rw [if_pos hreg]
        intro _
        rfl
      · rw [if_neg hreg]
        exact hwf
  · rw [h, (replace_reg_head H task.lun reg.addr _).2]
    exact hwf

/-- C16: the reservation is reset when the registry becomes empty. On a LUN state (one
in which an unset reservation type carries no stored holder, as in every state the code
produces) with a non-empty registry of distinct nexuses in which a set reservation type
that is not an all-registrants type has its stored holder among the registrants, every
call to `spdk_scsi_pr_out` after which the registry is empty leaves the reservation
empty: type unset and no stored holder, for all-registrants and non-all-registrants
types alike. -/
theorem pr_out_empty_registry_resets_reservation (H : spdk_scsi_decls)
    (calloc : Option Nat) (task : spdk_scsi_task) (cdb : List Nat)
    (param : spdk_scsi_pr_out_param_list) (data_len : Nat)
    (hwf : unset_type_no_holder task.lun)
    (hne : task.lun.reg_head ≠ []) (hu : nexus_unique task.lun)
    (hset : task.lun.reservation.rtype ≠ 0 →
      spdk_scsi_pr_is_all_registrants_type task.lun = false →
      ∃ r ∈ task.lun.reg_head, task.lun.reservation.holder = some r.addr)
    (hempty : (spdk_scsi_pr_out H calloc task cdb param data_len).2.lun.reg_head = []) :
    (spdk_scsi_pr_out H calloc task cdb param data_len).2.lun.reservation.rtype = 0 ∧
    (spdk_scsi_pr_out H calloc task cdb param data_len).2.lun.reservation.holder = none := by
  rcases pr_out_lun_cases H calloc task cdb param data_len with
    h | ⟨p, _, _, h⟩ | ⟨reg, _, h⟩ | ⟨reg, _, h⟩
  · rw [h] at hempty
    exact absurd hempty hne
  · rw [h] at hempty
    obtain ⟨reg, hhead, _⟩ := register_some_spec H p task.lun task.initiator_port
      task.target_port (from_be64 param.sa_rkey)
    rw [hhead] at hempty
    simp at hempty
  · rw [h] at hempty ⊢
    rw [unregister_reg_head] at hempty
    rw [unregister_reservation, hempty]
    by_cases hall : spdk_scsi_pr_is_all_registrants_type task.lun = true
    · simp [hall]
    · rw [if_neg hall]
      by_cases hreg : task.lun.reservation.holder = some reg.addr
      · simp [hreg]
      · rw [if_neg hreg]
        have hgone : ∀ r ∈ task.lun.reg_head,
            task.lun.reservation.holder ≠ some r.addr := by
          intro r hr hhold
          have hmem : r ∈ TAILQ_REMOVE task.lun.reg_head reg.addr := by
            unfold TAILQ_REMOVE
            rw [List.mem_filter]
            refine ⟨hr, ?_⟩
            have : r.addr ≠ reg.addr := fun heq => hreg (by rw [hhold, heq])
            simpa using this
          rw [hempty] at hmem
          exact absurd hmem (List.not_mem_nil _)
        by_cases ht : task.lun.reservation.rtype = 0
        · exact ⟨ht, hwf ht⟩
        · obtain ⟨r, hr, hhold⟩ := hset ht (by simpa using hall)
          exact absurd hhold (hgone r hr)
  · rw [h, (replace_reg_head H task.lun reg.addr _).1] at hempty
    rw [List.map_eq_nil_iff] at hempty
    exact absurd hempty hne

/-- Witness of C16: N1, the only registrant and holder of a write-exclusive reservation,
unregisters through the dispatcher. -/
theorem pr_out_empty_registry_resets_reservation_witness :
    unset_type_no_holder (sample_lun_one 5 (some 4096) 1) ∧
    (sample_lun_one 5 (some 4096) 1).reg_head ≠ [] ∧
    nexus_unique (sample_lun_one 5 (some 4096) 1) ∧
    (∃ r ∈ (sample_lun_one 5 (some 4096) 1).reg_head,
      (sample_lun_one 5 (some 4096) 1).reservation.holder = some r.addr) ∧
    sample_call_pr_out_last_holder_leaves.2.lun.reg_head = [] ∧
    (sample_call_pr_out_last_holder_leaves.2.lun.reservation.rtype = 0 ∧
     sample_call_pr_out_last_holder_leaves.2.lun.reservation.holder = none) :=
  ⟨by decide, by decide, by decide, ⟨sample_reg_1, by decide, by decide⟩, by decide,
    pr_out_empty_registry_resets_reservation sample_decls none
      (sample_task_1 (sample_lun_one 5 (some 4096) 1)) [0x5f, 0x00]
      sample_param_unregister 24 (by decide) (by decide) (by decide)
      (fun _ _ => ⟨sample_reg_1, by decide, by decide⟩) (by decide)⟩

/-- C17: no dangling holder. On a LUN in which no two registrants share an I_T nexus and
the stored holder is absent or a registrant of the registry, after every call to
`spdk_scsi_pr_out`, successful or not, the stored holder is again absent or a registrant
of the resulting registry; in particular it is never a registrant that the call removed
(a node of the previous registry that the resulting registry no longer contains). -/
theorem pr_out_no_dangling_holder (H : spdk_scsi_decls) (calloc : Option Nat)
    (task : spdk_scsi_task) (cdb : List Nat) (param : spdk_scsi_pr_out_param_list)
    (data_len : Nat) (hu : nexus_unique task.lun) (hh : holder_in_registry task.lun) :
    ((spdk_scsi_pr_out H calloc task cdb param data_len).2.lun.reservation.holder = none ∨
      ∃ r ∈ (spdk_scsi_pr_out H calloc task cdb param data_len).2.lun.reg_head,
        (spdk_scsi_pr_out H calloc task cdb param data_len).2.lun.reservation.holder =
          some r.addr) ∧
    (∀ x ∈ task.lun.reg_head,
      (∀ y ∈ (spdk_scsi_pr_out H calloc task cdb param data_len).2.lun.reg_head,
        y.addr ≠ x.addr) →
      (spdk_scsi_pr_out H calloc task cdb param data_len).2.lun.reservation.holder ≠
        some x.addr) := by
  have hmain := pr_out_holder_in_registry H calloc task cdb param data_len hh
  unfold holder_in_registry at hmain
  refine ⟨hmain, ?_⟩
  intro x _ hgone hhold
  rcases hmain with hnone | ⟨r, hr, hsome⟩
  · rw [hnone] at hhold
    exact Option.noConfusion hhold
  · rw [hsome] at hhold
    exact hgone r hr (Option.some.inj hhold)

/-- Witness of C17: N1, the holder of a write-exclusive reservation, unregisters through
the dispatcher while N2 stays registered; the stored holder becomes absent. -/
theorem pr_out_no_dangling_holder_witness :
    nexus_unique (sample_lun_two 5 (some 4096) 1) ∧
    holder_in_registry (sample_lun_two 5 (some 4096) 1) ∧
    ((spdk_scsi_pr_out sample_decls none (sample_task_1 (sample_lun_two 5 (some 4096) 1))
        [0x5f, 0x00] sample_param_unregister 24).2.lun.reservation.holder = none ∨
      ∃ r ∈ (spdk_scsi_pr_out sample_decls none
          (sample_task_1 (sample_lun_two 5 (some 4096) 1))
          [0x5f, 0x00] sample_param_unregister 24).2.lun.reg_head,
        (spdk_scsi_pr_out sample_decls none
          (sample_task_1 (sample_lun_two 5 (some 4096) 1))
          [0x5f, 0x00] sample_param_unregister 24).2.lun.reservation.holder =
          some r.addr) :=
  ⟨by decide, by decide,
    (pr_out_no_dangling_holder sample_decls none
      (sample_task_1 (sample_lun_two 5 (some 4096) 1)) [0x5f, 0x00]
      sample_param_unregister 24 (by decide) (by decide)).1⟩

/-- C18: nexus uniqueness invariant. If no two registrants share an I_T nexus before a
call to `spdk_scsi_pr_out`, none do after it; the registry only grows when the lookup of
the requesting nexus found nothing; and in every LUN state the lookup returns a
registrant exactly when the registry holds one with both the same initiator port and the
same target port, the registrant returned being of the registry and matching both. -/
theorem pr_out_nexus_uniqueness (H : spdk_scsi_decls) (calloc : Option Nat)
    (task : spdk_scsi_task) (cdb : List Nat) (param : spdk_scsi_pr_out_param_list)
    (data_len : Nat) (hu : nexus_unique task.lun) :
    nexus_unique (spdk_scsi_pr_out H calloc task cdb param data_len).2.lun ∧
    (task.lun.reg_head.length <
        (spdk_scsi_pr_out H calloc task cdb param data_len).2.lun.reg_head.length →
      spdk_scsi_pr_get_registrant task.lun task.initiator_port.addr
        task.target_port.addr = none) ∧
    (∀ (lun : spdk_scsi_lun) (ip tp : Nat),
      (∃ reg, spdk_scsi_pr_get_registrant lun ip tp = some reg) ↔
        ∃ r ∈ lun.reg_head, r.initiator_port = ip ∧ r.target_port = tp) ∧
    (∀ (lun : spdk_scsi_lun) (ip tp : Nat) (reg : spdk_scsi_pr_registrant),
      spdk_scsi_pr_get_registrant lun ip tp = some reg →
        reg ∈ lun.reg_head ∧ reg.initiator_port = ip ∧ reg.target_port = tp) := by
  refine ⟨pr_out_nexus_unique H calloc task cdb param data_len hu, ?_, ?_, ?_⟩
  · intro hlen
    rcases pr_out_lun_cases H calloc task cdb param data_len with
      h | ⟨p, _, hnone, _⟩ | ⟨reg, _, h⟩ | ⟨reg, _, h⟩
    · rw [h] at hlen
      exact absurd hlen (Nat.lt_irrefl _)
    · exact hnone
    · rw [h, unregister_reg_head] at hlen
      unfold TAILQ_REMOVE at hlen
      exact absurd hlen (Nat.not_lt.mpr (List.length_filter_le _ _))
    · rw [h, (replace_reg_head H task.lun reg.addr _).1, List.length_map] at hlen
      exact absurd hlen (Nat.lt_irrefl _)
  · intro lun ip tp
    constructor
    · rintro ⟨reg, hreg⟩
      obtain ⟨hip, htp, pre, post, hsplit, _⟩ := get_registrant_some_split lun ip tp reg hreg
      exact ⟨reg, by rw [hsplit]; simp, hip, htp⟩
    · rintro ⟨r, hr, hip, htp⟩
      cases hget : spdk_scsi_pr_get_registrant lun ip tp with
      | some reg => exact ⟨reg, rfl⟩
      | none =>
        unfold spdk_scsi_pr_get_registrant at hget
        rw [List.find?_eq_none] at hget
        exact absurd (by simp [hip, htp]) (hget r hr)
  · intro lun ip tp reg hreg
    obtain ⟨hip, htp, pre, post, hsplit, _⟩ := get_registrant_some_split lun ip tp reg hreg
    exact ⟨by rw [hsplit]; simp, hip, htp⟩

/-- Witness of C18: N1 registers through the dispatcher on a LUN that holds N2 only. -/
theorem pr_out_nexus_uniqueness_witness :
    nexus_unique sample_lun_second_only ∧
    nexus_unique (spdk_scsi_pr_out sample_decls (some 4096)
      (sample_task_1 sample_lun_second_only) [0x5f, 0x00] sample_param_register 24).2.lun ∧
    (spdk_scsi_pr_out sample_decls (some 4096)
      (sample_task_1 sample_lun_second_only) [0x5f, 0x00] sample_param_register
      24).2.lun.reg_head.length = 2 :=
  ⟨by decide,
    (pr_out_nexus_uniqueness sample_decls (some 4096) (sample_task_1 sample_lun_second_only)
      [0x5f, 0x00] sample_param_register 24 (by decide)).1, by decide⟩

/-! ## Unregistering a registrant that is not the stored holder -/

/-- Under an all-registrants type, unregistering any registrant of a queue of distinct
nodes that has another registrant moves the stored holder to the first node of the
remaining queue and keeps the type. -/
theorem unregister_all_regs_first (H : spdk_scsi_decls) (task : spdk_scsi_task)
    (reg : spdk_scsi_pr_registrant)
    (hd : nodes_distinct task.lun)
    (hreg : spdk_scsi_pr_get_registrant task.lun task.initiator_port.addr
      task.target_port.addr = some reg)
    (htype : task.lun.reservation.rtype = SPDK_SCSI_PR_WRITE_EXCLUSIVE_ALL_REGS ∨
      task.lun.reservation.rtype = SPDK_SCSI_PR_EXCLUSIVE_ACCESS_ALL_REGS)
    (hother : ∃ other, other ∈ task.lun.reg_head ∧ other ≠ reg) :
    ∃ pre post first rest, task.lun.reg_head = pre ++ reg :: post ∧
      (spdk_scsi_pr_unregister_registrant H task.lun reg.addr).reg_head = pre ++ post ∧
      pre ++ post = first :: rest ∧
      (spdk_scsi_pr_unregister_registrant H task.lun reg.addr).reservation =
        { task.lun.reservation with holder := some first.addr } ∧
      (first :: rest).Pairwise (fun a b => a.addr ≠ b.addr) := by
  obtain ⟨_, _, pre, post, hsplit, _⟩ := get_registrant_some_split task.lun _ _ reg hreg
  have hdl : (pre ++ reg :: post).Pairwise (fun a b => a.addr ≠ b.addr) := by
    rw [← hsplit]
    exact hd
  have hrem : TAILQ_REMOVE task.lun.reg_head reg.addr = pre ++ post := by
    rw [hsplit]
    exact TAILQ_REMOVE_split pre post reg hdl
  have hall : spdk_scsi_pr_is_all_registrants_type task.lun = true := by
    unfold spdk_scsi_pr_is_all_registrants_type
    rcases htype with h | h <;> simp [h]
  obtain ⟨other, hmem, hne⟩ := hother
  have hmem2 : other ∈ pre ++ post := by
    rw [hsplit] at hmem
    simp only [List.mem_append, List.mem_cons] at hmem ⊢
    rcases hmem with h | h | h
    · exact Or.inl h
    · exact absurd h hne
    · exact Or.inr h
  obtain ⟨first, rest, hfirst⟩ : ∃ first rest, pre ++ post = first :: rest := by
    cases hl : pre ++ post with
    | nil => rw [hl] at hmem2; exact absurd hmem2 (List.not_mem_nil _)
    | cons a l => exact ⟨a, l, rfl⟩
  have hsub : (pre ++ post).Pairwise (fun a b => a.addr ≠ b.addr) := by
    rw [← hrem]
    exact List.Pairwise.filter _ hd
  refine ⟨pre, post, first, rest, hsplit, ?_, hfirst, ?_, ?_⟩
  · rw [unregister_reg_head, hrem]
  · rw [unregister_reservation, hall, hrem, hfirst]
    simp [TAILQ_FIRST]
  · rw [← hfirst]
    exact hsub

/-- C19: under an all-registrants reservation every unregistration re-points the stored
holder. On a LUN of distinct registrant nodes whose reservation type is an
all-registrants type and whose registry has at least two registrants, a successful
unregistration of a registrant `reg` that is not the stored holder keeps the type and
sets the stored holder to the first registrant of the remaining registry; so when the
previous stored holder is a surviving registrant other than that first one, the stored
holder has changed although the previous holder was not removed. -/
theorem unregister_non_holder_repoints (H : spdk_scsi_decls) (calloc : Option Nat)
    (task : spdk_scsi_task) (action rkey : Nat) (reg : spdk_scsi_pr_registrant)
    (hd : nodes_distinct task.lun)
    (hreg : spdk_scsi_pr_get_registrant task.lun task.initiator_port.addr
      task.target_port.addr = some reg)
    (hkey : rkey = reg.rkey ∨ action = SPDK_SCSI_PR_OUT_REG_AND_IGNORE_KEY)
    (htype : task.lun.reservation.rtype = SPDK_SCSI_PR_WRITE_EXCLUSIVE_ALL_REGS ∨
      task.lun.reservation.rtype = SPDK_SCSI_PR_EXCLUSIVE_ACCESS_ALL_REGS)
    (hnot : task.lun.reservation.holder ≠ some reg.addr)
    (hother : ∃ other, other ∈ task.lun.reg_head ∧ other ≠ reg) :
    (spdk_scsi_pr_out_register H calloc task action rkey 0 0 0 0).1 = 0 ∧
    (spdk_scsi_pr_out_register H calloc task action rkey 0 0 0 0).2.lun.reservation.rtype =
      task.lun.reservation.rtype ∧
    (∃ pre post first rest, task.lun.reg_head = pre ++ reg :: post ∧
      (spdk_scsi_pr_out_register H calloc task action rkey 0 0 0 0).2.lun.reg_head =
        pre ++ post ∧
      pre ++ post = first :: rest ∧
      (spdk_scsi_pr_out_register H calloc task action rkey 0 0 0 0).2.lun.reservation.holder =
        some first.addr ∧
      (∀ h ∈ pre ++ post, task.lun.reservation.holder = some h.addr → h ≠ first →
        (spdk_scsi_pr_out_register H calloc task action rkey 0 0 0
          0).2.lun.reservation.holder ≠ task.lun.reservation.holder)) := by
  rw [pr_out_register_eq_unregister H calloc task action rkey reg hreg hkey]
  obtain ⟨pre, post, first, rest, hsplit, hhead, hfirst, hres, hpw⟩ :=
    unregister_all_regs_first H task reg hd hreg htype hother
  simp only []
  rw [hres, hhead]
  refine ⟨trivial, rfl, pre, post, first, rest, hsplit, rfl, hfirst, rfl, ?_⟩
  intro h hmem hhold hne heq
  rw [hhold] at heq
  have haddr : first.addr = h.addr := Option.some.inj heq
  rw [hfirst, List.mem_cons] at hmem
  rw [List.pairwise_cons] at hpw
  rcases hmem with hm | hm
  · exact hne hm
  · exact hpw.1 h hm haddr

/-- Witness of C19: the registry is N1, N2, N3 under a write-exclusive-all-registrants
reservation with stored holder N2; N3 unregisters; N2 is still registered and the stored
holder is now N1. -/
theorem unregister_non_holder_repoints_witness :
    nodes_distinct (sample_lun_three 5 (some 8192) 7) ∧
    spdk_scsi_pr_get_registrant (sample_lun_three 5 (some 8192) 7) 102 200 =
      some sample_reg_3 ∧
    (sample_lun_three 5 (some 8192) 7).reservation.holder ≠ some sample_reg_3.addr ∧
    sample_reg_2 ∈ sample_call_unregister_non_holder.2.lun.reg_head ∧
    sample_call_unregister_non_holder.2.lun.reservation.holder = some sample_reg_1.addr ∧
    (sample_call_unregister_non_holder.1 = 0 ∧
     sample_call_unregister_non_holder.2.lun.reservation.rtype = 7 ∧
     (∃ pre post first rest,
        [sample_reg_1, sample_reg_2, sample_reg_3] = pre ++ sample_reg_3 :: post ∧
        sample_call_unregister_non_holder.2.lun.reg_head = pre ++ post ∧
        pre ++ post = first :: rest ∧
        sample_call_unregister_non_holder.2.lun.reservation.holder = some first.addr ∧
        (∀ h ∈ pre ++ post, some 8192 = some h.addr → h ≠ first →
          sample_call_unregister_non_holder.2.lun.reservation.holder ≠ some 8192))) :=
  ⟨by decide, by decide, by decide, by decide, by decide,
    unregister_non_holder_repoints sample_decls none
      (sample_task_3 (sample_lun_three 5 (some 8192) 7)) SPDK_SCSI_PR_OUT_REGISTER 0x9abc
      sample_reg_3 (by decide) (by decide) (Or.inl rfl) (Or.inl rfl) (by decide)
      ⟨sample_reg_1, by decide, by decide⟩⟩

/-! ## Register, then unregister -/

/-- The call on an unregistered nexus whose key check passes, with a non-zero service
action key, is the registration of a new registrant. -/
theorem pr_out_register_eq_register (H : spdk_scsi_decls) (calloc : Option Nat)
    (task : spdk_scsi_task) (action rkey sa_rkey : Nat)
    (hnone : spdk_scsi_pr_get_registrant task.lun task.initiator_port.addr
      task.target_port.addr = none)
    (hsa : sa_rkey ≠ 0)
    (hkey : rkey = 0 ∨ action = SPDK_SCSI_PR_OUT_REG_AND_IGNORE_KEY) :
    spdk_scsi_pr_out_register H calloc task action rkey sa_rkey 0 0 0 =
      ((spdk_scsi_pr_register_registrant H calloc task.lun task.initiator_port
          task.target_port sa_rkey).1,
       { task with lun := (spdk_scsi_pr_register_registrant H calloc task.lun
          task.initiator_port task.target_port sa_rkey).2 }) := by
  have hcheck := key_check_passes action rkey 0 hkey
  unfold spdk_scsi_pr_out_register
  simp [hnone, hcheck, hsa]

/-- C20, amended: register then unregister round trip. On a LUN with distinct nexuses
whose reservation type is not an all-registrants type and whose stored holder is absent
or in the registry, for a nexus N without registrant, a non-zero key `k` and a successful
allocation of unused storage `p`: the REGISTER from N with `rkey` 0 and `sa_rkey` `k`
succeeds, the following REGISTER from N with `rkey` `k` and `sa_rkey` 0 succeeds, and the
registry, the reservation type and the stored holder are then identical to the original
ones; the generation counter is the original one plus two modulo two to the width of the
counter, hence exactly two more unless the counter was within two of its maximum. -/
theorem register_unregister_round_trip (H : spdk_scsi_decls) (p : Nat)
    (calloc2 : Option Nat) (task : spdk_scsi_task) (k : Nat)
    (hu : nexus_unique task.lun)
    (htype : spdk_scsi_pr_is_all_registrants_type task.lun = false)
    (hh : holder_in_registry task.lun)
    (hnone : spdk_scsi_pr_get_registrant task.lun task.initiator_port.addr
      task.target_port.addr = none)
    (hk : k ≠ 0)
    (hfresh : calloc_fresh (some p) task.lun) :
    (spdk_scsi_pr_out_register H (some p) task SPDK_SCSI_PR_OUT_REGISTER 0 k 0 0 0).1 = 0 ∧
    (spdk_scsi_pr_out_register H calloc2
      (spdk_scsi_pr_out_register H (some p) task SPDK_SCSI_PR_OUT_REGISTER 0 k 0 0 0).2
      SPDK_SCSI_PR_OUT_REGISTER k 0 0 0 0).1 = 0 ∧
    (spdk_scsi_pr_out_register H calloc2
      (spdk_scsi_pr_out_register H (some p) task SPDK_SCSI_PR_OUT_REGISTER 0 k 0 0 0).2
      SPDK_SCSI_PR_OUT_REGISTER k 0 0 0 0).2.lun.reg_head = task.lun.reg_head ∧
    (spdk_scsi_pr_out_register H calloc2
      (spdk_scsi_pr_out_register H (some p) task SPDK_SCSI_PR_OUT_REGISTER 0 k 0 0 0).2
      SPDK_SCSI_PR_OUT_REGISTER k 0 0 0 0).2.lun.reservation.rtype =
        task.lun.reservation.rtype ∧
    (spdk_scsi_pr_out_register H calloc2
      (spdk_scsi_pr_out_register H (some p) task SPDK_SCSI_PR_OUT_REGISTER 0 k 0 0 0).2
      SPDK_SCSI_PR_OUT_REGISTER k 0 0 0 0).2.lun.reservation.holder =
        task.lun.reservation.holder ∧
    (spdk_scsi_pr_out_register H calloc2
      (spdk_scsi_pr_out_register H (some p) task SPDK_SCSI_PR_OUT_REGISTER 0 k 0 0 0).2
      SPDK_SCSI_PR_OUT_REGISTER k 0 0 0 0).2.lun.pr_generation =
        (task.lun.pr_generation + 2) % 2 ^ H.pr_generation_bits ∧
    (task.lun.pr_generation + 2 < 2 ^ H.pr_generation_bits →
      (spdk_scsi_pr_out_register H calloc2
        (spdk_scsi_pr_out_register H (some p) task SPDK_SCSI_PR_OUT_REGISTER 0 k 0 0 0).2
        SPDK_SCSI_PR_OUT_REGISTER k 0 0 0 0).2.lun.pr_generation =
          task.lun.pr_generation + 2) := by
  rw [pr_out_register_eq_register H (some p) task SPDK_SCSI_PR_OUT_REGISTER 0 k hnone hk
    (Or.inl rfl)]
  obtain ⟨reg, hhead, haddr, hip, htp, hrk, hres, hgen⟩ :=
    register_some_spec H p task.lun task.initiator_port task.target_port k
  generalize hL1 : (spdk_scsi_pr_register_registrant H (some p) task.lun
    task.initiator_port task.target_port k).2 = L1 at hhead hres hgen
  have hrc1 : (spdk_scsi_pr_register_registrant H (some p) task.lun task.initiator_port
      task.target_port k).1 = 0 := rfl
  rw [hrc1]
  have hfind : spdk_scsi_pr_get_registrant L1 task.initiator_port.addr
      task.target_port.addr = some reg := by
    unfold spdk_scsi_pr_get_registrant at hnone ⊢
    rw [hhead, List.find?_append, hnone]
    simp [hip, htp]
  have hsecond := pr_out_register_eq_unregister H calloc2 { task with lun := L1 }
    SPDK_SCSI_PR_OUT_REGISTER k reg hfind (Or.inl hrk.symm)
  rw [hsecond]
  simp only []
  have hold : ∀ r ∈ task.lun.reg_head, r.addr ≠ p := by
    intro r hr heq
    exact hfresh r hr (by rw [heq])
  have hrem : TAILQ_REMOVE L1.reg_head reg.addr = task.lun.reg_head := by
    unfold TAILQ_REMOVE
    rw [hhead, List.filter_append, haddr]
    have h1 : List.filter (fun r => r.addr != p) task.lun.reg_head = task.lun.reg_head := by
      rw [List.filter_eq_self]
      intro a ha
      simpa using hold a ha
    rw [h1]
    simp [haddr]
  have hall1 : spdk_scsi_pr_is_all_registrants_type L1 = false := by
    unfold spdk_scsi_pr_is_all_registrants_type at htype ⊢
    rw [hres]
    exact htype
  have hhold : ¬ L1.reservation.holder = some reg.addr := by
    rw [hres, haddr]
    intro hc
    rcases hh with hnone2 | ⟨r, hr, hsome⟩
    · rw [hnone2] at hc
      exact Option.noConfusion hc
    · rw [hsome] at hc
      exact hold r hr (Option.some.inj hc)
  have hres2 : (spdk_scsi_pr_unregister_registrant H L1 reg.addr).reservation =
      task.lun.reservation := by
    rw [unregister_reservation, hall1]
    simp only [Bool.false_eq_true, if_false]
    rw [if_neg hhold, hres]
  have hgen2 : (spdk_scsi_pr_unregister_registrant H L1 reg.addr).pr_generation =
      (task.lun.pr_generation + 2) % 2 ^ H.pr_generation_bits := by
    rw [unregister_pr_generation, hgen, Nat.mod_add_mod]
  refine ⟨trivial, trivial, ?_, ?_, ?_, hgen2, ?_⟩
  · rw [unregister_reg_head, hrem]
  · rw [hres2]
  · rw [hres2]
  · intro hlt
    rw [hgen2, Nat.mod_eq_of_lt hlt]

/-- Witness of C20: N1 registers key 0x1234 and unregisters again on a LUN at generation
5 whose only registrant N2 holds a write-exclusive reservation. -/
theorem register_unregister_round_trip_witness :
    nexus_unique (sample_lun_second 5) ∧
    spdk_scsi_pr_is_all_registrants_type (sample_lun_second 5) = false ∧
    holder_in_registry (sample_lun_second 5) ∧
    spdk_scsi_pr_get_registrant (sample_lun_second 5) 100 200 = none ∧
    calloc_fresh (some 4096) (sample_lun_second 5) ∧
    ((sample_round_trip_first 5).1 = 0 ∧
     (sample_round_trip_second 5).1 = 0 ∧
     (sample_round_trip_second 5).2.lun.reg_head = [sample_reg_2] ∧
     (sample_round_trip_second 5).2.lun.reservation.rtype = 1 ∧
     (sample_round_trip_second 5).2.lun.reservation.holder = some 8192 ∧
     (sample_round_trip_second 5).2.lun.pr_generation = (5 + 2) % 2 ^ 32 ∧
     (5 + 2 < 2 ^ 32 → (sample_round_trip_second 5).2.lun.pr_generation = 5 + 2)) :=
  ⟨by decide, by decide, by decide, by decide, by decide,
    register_unregister_round_trip sample_decls 4096 none
      (sample_task_1 (sample_lun_second 5)) 0x1234 (by decide) (by decide) (by decide)
      (by decide) (by decide) (by decide)⟩

/-- C20 as stated fails: with a 32-bit generation counter at 4294967295, the round trip
of N1 succeeds twice and restores registry and reservation, but leaves the counter at 1,
not at two more than originally. -/
theorem register_unregister_round_trip_wraps :
    spdk_scsi_pr_get_registrant (sample_lun_second 4294967295) 100 200 = none ∧
    holder_in_registry (sample_lun_second 4294967295) ∧
    (sample_round_trip_first 4294967295).1 = 0 ∧
    (sample_round_trip_second 4294967295).1 = 0 ∧
    (sample_round_trip_second 4294967295).2.lun.reg_head = [sample_reg_2] ∧
    (sample_round_trip_second 4294967295).2.lun.pr_generation = 1 ∧
    ¬ ((sample_round_trip_second 4294967295).2.lun.pr_generation =
        (sample_lun_second 4294967295).pr_generation + 2) := by
  decide
